import Mathlib

/-!
# Verification of the TransIntelliFlow fraud-detection core

Shallow embedding of the fraud-decision core of the
`Predictive_Transaction_Intelligence_For_BFSI` repository:

* `src/backend/src/detection/fraud_detector.py` (namespace `Engine`),
* `src/backend/src/api/main.py` helper functions (namespace `ApiMain`),
* `src/api/index.py` serverless handler functions (namespace `VercelApi`),
* `src/backend/src/preprocessing/preprocessor.py` one-hot encodings
  (namespace `Preproc`).

Modelling conventions:

* Python `float` arithmetic is modelled by exact rational arithmetic (`ℚ`).
* Python `datetime` timestamps are modelled as rational numbers counting
  minutes, so a `timedelta(minutes=m)` comparison becomes a comparison
  against the literal `m` (hours become `60*h`).
* Python strings are modelled as Lean `String`; `str.lower()`/`str.strip()`
  are modelled by `pyLower`/`pyStrip` below (ASCII case folding and
  whitespace stripping, which is what the inputs of this system use).
* `numpy.std` (population standard deviation) is modelled by storing the
  population *variance* (`var_transaction_amount = std²`); the single
  comparison the source performs on the std (`|x - mean| / std > 3` guarded
  by `std > 0`) is modelled by the equivalent squared comparison
  `(x - mean)² > 9 · var` guarded by `var > 0`, avoiding irrational square
  roots.
* Python's `round(x, d)` (round-half-to-even on the exact value) is modelled
  by `roundq d x` below.
* Human-readable message strings (alert messages, explanation text, reason
  text) are elided or replaced by tags carrying the same selection data;
  no claim depends on their rendered text.
-/

/-- ASCII lower-casing of one character, as Python's `str.lower` does for
the ASCII inputs used by this system. -/
def pyLowerChar (c : Char) : Char :=
  if 'A' ≤ c ∧ c ≤ 'Z' then Char.ofNat (c.toNat + 32) else c

/-- Model of Python `str.lower()`. -/
def pyLower (s : String) : String :=
  String.mk (s.data.map pyLowerChar)

/-- Model of Python `str.strip()`: drop whitespace from both ends. -/
def pyStrip (s : String) : String :=
  String.mk (((s.data.dropWhile Char.isWhitespace).reverse.dropWhile
    Char.isWhitespace).reverse)

/-- Python dict read with default (`dict.get(k, d)` / `defaultdict`). -/
def dictGet {α : Type} (m : List (String × α)) (k : String) : Option α :=
  match m with
  | [] => none
  | (k', v) :: rest => if k' = k then some v else dictGet rest k

/-- Python dict write `m[k] = v` (replaces the binding, keeps insertion
order, appends if the key is fresh). -/
def dictSet {α : Type} (m : List (String × α)) (k : String) (v : α) :
    List (String × α) :=
  match m with
  | [] => [(k, v)]
  | (k', v') :: rest =>
      if k' = k then (k, v) :: rest else (k', v') :: dictSet rest k v

/-- Python 3 `round()` to an integer: round half to even. -/
def pyRound (x : ℚ) : ℤ :=
  let f := ⌊x⌋
  let r := x - f
  if r < 1/2 then f
  else if 1/2 < r then f + 1
  else if 2 ∣ f then f else f + 1

/-- Python `round(x, d)`. -/
def roundq (d : ℕ) (x : ℚ) : ℚ :=
  (pyRound (x * 10 ^ d) : ℚ) / 10 ^ d

/-- `numpy.mean` of a list of rationals. -/
def listMean (l : List ℚ) : ℚ := l.sum / l.length

/-- Population variance (the square of `numpy.std`). -/
def listVar (l : List ℚ) : ℚ :=
  ((l.map (fun x => (x - listMean l) ^ 2)).sum) / l.length

/-- One-hot channel flags (Web, Mobile, ATM, POS). -/
structure ChannelFlags where
  atm : ℕ
  mobile : ℕ
  pos : ℕ
  web : ℕ
deriving Repr, DecidableEq

/-- One-hot KYC flags (`kyc_verified_No`, `kyc_verified_Yes`). -/
structure KycFlags where
  no : ℕ
  yes : ℕ
deriving Repr, DecidableEq

namespace Preproc

/-!
The one-hot encoding portion of `FraudPreprocessor.transform`
(`src/backend/src/preprocessing/preprocessor.py`, lines 56–64).
`channel_lower = str(channel).lower().strip()`, then each channel flag is
`int(channel_lower == key)` for the four mapping keys; likewise for KYC.
-/

/-- Channel one-hot flags of `FraudPreprocessor.transform`. -/
def transform_channel_flags (channel : String) : ChannelFlags :=
  let channel_lower := pyStrip (pyLower channel)
  { atm := if channel_lower = "atm" then 1 else 0
    mobile := if channel_lower = "mobile" then 1 else 0
    pos := if channel_lower = "pos" then 1 else 0
    web := if channel_lower = "web" then 1 else 0 }

/-- KYC one-hot flags of `FraudPreprocessor.transform`. -/
def transform_kyc_flags (kyc_verified : String) : KycFlags :=
  let kyc_lower := pyStrip (pyLower kyc_verified)
  { no := if kyc_lower = "no" then 1 else 0
    yes := if kyc_lower = "yes" then 1 else 0 }

end Preproc

namespace ApiMain

/-!
Helper functions of `src/backend/src/api/main.py`.
-/

/-- `_channel_feature_flags` (main.py lines 96–122): normalize
(`(channel or "").strip().lower()`), look the result up in the mapping,
set the matched flag, default to Web when unmapped.  In Python
`channel or ""` is the identity on strings, so it is dropped here. -/
def channel_feature_flags (channel : String) : ChannelFlags :=
  let normalized := pyLower (pyStrip channel)
  if normalized = "atm" then { atm := 1, mobile := 0, pos := 0, web := 0 }
  else if normalized = "mobile" then { atm := 0, mobile := 1, pos := 0, web := 0 }
  else if normalized = "pos" then { atm := 0, mobile := 0, pos := 1, web := 0 }
  else if normalized = "web" then { atm := 0, mobile := 0, pos := 0, web := 1 }
  else { atm := 0, mobile := 0, pos := 0, web := 1 }

/-- `_kyc_flags` (main.py lines 124–129): normalize
(`(kyc_status or "No").strip().lower()` — the `or` substitutes `"No"`
exactly when the string is empty), then compare against `"no"`/`"yes"`. -/
def kyc_flags (kyc_status : String) : KycFlags :=
  let normalized := pyLower (pyStrip (if kyc_status = "" then "No" else kyc_status))
  { no := if normalized = "no" then 1 else 0
    yes := if normalized = "yes" then 1 else 0 }

end ApiMain

/-- The rule flags produced by `_apply_rule_based_detection`
(`src/backend/src/api/main.py`) and `apply_rule_based_detection`
(`src/api/index.py`); both use the same seven flag names. -/
inductive ApiRuleFlag
  | HIGH_VALUE_NEW_ACCOUNT
  | UNVERIFIED_KYC_HIGH_AMOUNT
  | UNUSUAL_HOUR
  | VERY_HIGH_AMOUNT
  | EXTREME_FRAUD_PATTERN
  | NEW_ACCOUNT_UNVERIFIED
  | HIGH_ATM_WITHDRAWAL
deriving Repr, DecidableEq

namespace ApiMain

/-- `_apply_rule_based_detection` (main.py lines 217–299): evaluate the
seven business rules, then fuse with the ML prediction/probability.
Returns `(final_prediction, rule_flags)`; the human-readable reason string
(built from `_derive_risk_factors`/`_generate_fraud_reason`) is elided. -/
def apply_rule_based_detection (transaction_amount : ℚ)
    (account_age_days : ℤ) (hour : ℤ) (kyc_verified : String)
    (channel : String) (ml_prediction : ℕ) (ml_probability : ℚ) :
    ℕ × List ApiRuleFlag :=
  let kyc_no := pyLower (pyStrip kyc_verified) = "no"
  let rule_flags : List ApiRuleFlag :=
    (if 10000 < transaction_amount ∧ account_age_days < 30 then
      [.HIGH_VALUE_NEW_ACCOUNT] else []) ++
    (if kyc_no ∧ 5000 < transaction_amount then
      [.UNVERIFIED_KYC_HIGH_AMOUNT] else []) ++
    (if 0 ≤ hour ∧ hour ≤ 5 ∧ 3000 < transaction_amount then
      [.UNUSUAL_HOUR] else []) ++
    (if 50000 < transaction_amount then [.VERY_HIGH_AMOUNT] else []) ++
    (if account_age_days ≤ 5 ∧ 70000 < transaction_amount ∧ kyc_no ∧ hour ≤ 4 then
      [.EXTREME_FRAUD_PATTERN] else []) ++
    (if account_age_days < 7 ∧ kyc_no then [.NEW_ACCOUNT_UNVERIFIED] else []) ++
    (if (pyLower channel = "atm" ∨ pyLower channel = "pos") ∧
        20000 < transaction_amount then [.HIGH_ATM_WITHDRAWAL] else [])
  let rule_triggered := rule_flags ≠ []
  let final_prediction : ℕ :=
    if ApiRuleFlag.EXTREME_FRAUD_PATTERN ∈ rule_flags then 1
    else if 3 ≤ rule_flags.length ∧ 1/10 < ml_probability then 1
    else if rule_triggered ∧ 3/10 < ml_probability then 1
    else if 7/10 ≤ ml_probability then 1
    else if rule_triggered ∧ 15/100 < ml_probability then 1
    else ml_prediction
  (final_prediction, rule_flags)

end ApiMain

namespace VercelApi

/-!
Functions of the Vercel serverless handler `src/api/index.py`.
-/

/-- `determine_risk_level` (index.py lines 26–31). -/
def determine_risk_level (probability : ℚ) : String :=
  if 7/10 < probability then "High"
  else if 4/10 < probability then "Medium"
  else "Low"

/-- `calculate_fraud_probability` (index.py lines 47–84): simulated ML
probability from known fraud patterns, capped at 0.98. -/
def calculate_fraud_probability (amount : ℚ) (account_age : ℤ)
    (hour : ℤ) (kyc : String) (channel : String) : ℚ :=
  let prob : ℚ := 5/100
  let prob := prob +
    (if 50000 < amount then 35/100
     else if 20000 < amount then 20/100
     else if 10000 < amount then 10/100
     else 0)
  let prob := prob +
    (if account_age < 7 then 25/100
     else if account_age < 30 then 15/100
     else if account_age < 90 then 5/100
     else 0)
  let prob := prob +
    (if 0 ≤ hour ∧ hour ≤ 5 then 20/100
     else if 22 ≤ hour then 10/100
     else 0)
  let prob := prob + (if pyLower kyc = "no" then 20/100 else 0)
  let prob := prob +
    (if pyLower channel = "atm" then 10/100
     else if pyLower channel = "pos" then 5/100
     else 0)
  min prob (98/100)

/-- `apply_rule_based_detection` (index.py lines 86–119).  Returns
`(is_fraud, rule_flags)`. -/
def apply_rule_based_detection (amount : ℚ) (account_age : ℤ)
    (hour : ℤ) (kyc : String) (channel : String) (ml_prob : ℚ) :
    Bool × List ApiRuleFlag :=
  let rule_flags : List ApiRuleFlag :=
    (if 10000 < amount ∧ account_age < 30 then
      [.HIGH_VALUE_NEW_ACCOUNT] else []) ++
    (if pyLower kyc = "no" ∧ 5000 < amount then
      [.UNVERIFIED_KYC_HIGH_AMOUNT] else []) ++
    (if 0 ≤ hour ∧ hour ≤ 5 ∧ 3000 < amount then [.UNUSUAL_HOUR] else []) ++
    (if 50000 < amount then [.VERY_HIGH_AMOUNT] else []) ++
    (if account_age ≤ 5 ∧ 70000 < amount ∧ pyLower kyc = "no" ∧ hour ≤ 4 then
      [.EXTREME_FRAUD_PATTERN] else []) ++
    (if account_age < 7 ∧ pyLower kyc = "no" then
      [.NEW_ACCOUNT_UNVERIFIED] else []) ++
    (if (pyLower channel = "atm" ∨ pyLower channel = "pos") ∧ 20000 < amount then
      [.HIGH_ATM_WITHDRAWAL] else [])
  let is_fraud : Bool :=
    if ApiRuleFlag.EXTREME_FRAUD_PATTERN ∈ rule_flags then true
    else if 3 ≤ rule_flags.length ∧ 1/10 < ml_prob then true
    else if rule_flags ≠ [] ∧ 3/10 < ml_prob then true
    else if 7/10 ≤ ml_prob then true
    else if rule_flags ≠ [] ∧ 15/100 < ml_prob then true
    else decide (1/2 ≤ ml_prob)
  (is_fraud, rule_flags)

/-- `derive_risk_factors` (index.py lines 33–45). -/
def derive_risk_factors (amount : ℚ) (account_age : ℤ) (hour : ℤ)
    (kyc : String) (channel : String) : List String :=
  (if 10000 < amount then ["High transaction amount"] else []) ++
  (if account_age < 30 then ["New account (< 30 days)"] else []) ++
  (if hour < 6 ∨ 22 < hour then ["Unusual transaction time"] else []) ++
  (if pyLower kyc = "no" then ["KYC not verified"] else []) ++
  (if (pyLower channel = "atm" ∨ pyLower channel = "pos") ∧ 20000 < amount then
    ["High-value ATM transaction"] else [])

/-- The response record of `handle_predict_enhanced` (the
`reason`/`model_version`/`timestamp` string fields are elided). -/
structure PredictResponse where
  transaction_id : String
  prediction : String
  risk_score : ℚ
  confidence : ℚ
  rule_flags : List ApiRuleFlag
  risk_level : String
  risk_factors : List String
deriving Repr, DecidableEq

/-- `handle_predict_enhanced` (index.py lines 158–195): compute the
simulated ML probability, apply the rules, derive the risk level with the
fraud/Low upgrade, and assemble the response. -/
def handle_predict_enhanced (customer_id : String) (amount : ℚ)
    (account_age : ℤ) (channel : String) (kyc : String) (hour : ℤ) :
    PredictResponse :=
  let ml_prob := calculate_fraud_probability amount account_age hour kyc channel
  let fused := apply_rule_based_detection amount account_age hour kyc channel ml_prob
  let is_fraud := fused.1
  let rule_flags := fused.2
  let risk_level := determine_risk_level ml_prob
  let risk_level :=
    if is_fraud ∧ risk_level = "Low" then
      (if rule_flags.length < 3 then "Medium" else "High")
    else risk_level
  { transaction_id := customer_id
    prediction := if is_fraud then "Fraud" else "Legitimate"
    risk_score := roundq 4 ml_prob
    confidence := roundq 2 (|ml_prob - 1/2| * 200)
    rule_flags := rule_flags
    risk_level := risk_level
    risk_factors := derive_risk_factors amount account_age hour kyc channel }

end VercelApi

namespace Engine

/-!
`src/backend/src/detection/fraud_detector.py`: the `FraudDetectionEngine`
and its supporting classes.
-/

/-- `RiskLevel` enum (fraud_detector.py lines 25–29). -/
inductive RiskLevel
  | Low
  | Medium
  | High
  | Critical
deriving Repr, DecidableEq

/-- The `.value` strings of `RiskLevel`. -/
def RiskLevel.value : RiskLevel → String
  | .Low => "Low"
  | .Medium => "Medium"
  | .High => "High"
  | .Critical => "Critical"

/-- `AlertType` enum (fraud_detector.py lines 32–42). -/
inductive AlertType
  | HIGH_VALUE_TRANSACTION
  | NEW_ACCOUNT_RISK
  | UNUSUAL_HOUR
  | VELOCITY_SPIKE
  | GEOGRAPHIC_ANOMALY
  | PATTERN_DEVIATION
  | KYC_VIOLATION
  | CHANNEL_ANOMALY
  | AMOUNT_DEVIATION
  | FRAUD_SIGNATURE_MATCH
deriving Repr, DecidableEq

/-- The flag names the engine can produce (string literals in the source;
one constructor per distinct literal, grouped by producing method). -/
inductive Flag
  -- _apply_business_rules
  | HIGH_VALUE_NEW_ACCOUNT
  | UNVERIFIED_KYC_HIGH_AMOUNT
  | UNUSUAL_HOUR_TRANSACTION
  | VERY_HIGH_AMOUNT
  | NEW_ACCOUNT_UNVERIFIED
  | HIGH_ATM_POS_WITHDRAWAL
  | NEW_ACCOUNT_HIGH_VALUE
  -- _analyze_behavior
  | AMOUNT_DEVIATION
  | AMOUNT_5X_AVERAGE
  | NEW_CHANNEL_USED
  | UNUSUAL_HOUR_FOR_CUSTOMER
  | NEW_LOCATION_DETECTED
  | RAPID_HIGH_VALUE_TRANSACTION
  | ACTIVITY_SPIKE_24H
  -- _match_fraud_signatures
  | ROUND_AMOUNT_SUSPICIOUS
  | JUST_BELOW_REPORTING_LIMIT
  | MIDNIGHT_HIGH_VALUE_TRANSACTION
  | NEW_ACCOUNT_BURST_ACTIVITY
  | RAPID_FIRE_TRANSACTIONS
  -- _check_velocity
  | VELOCITY_LIMIT_EXCEEDED
  | VELOCITY_WARNING
deriving Repr, DecidableEq

/-- `CustomerProfile` dataclass (fraud_detector.py lines 78–94).
`var_transaction_amount` stores the square of the source's
`std_transaction_amount` (see the module header). -/
structure CustomerProfile where
  customer_id : String
  avg_transaction_amount : ℚ := 0
  var_transaction_amount : ℚ := 0
  total_transactions : ℕ := 0
  fraud_incidents : ℕ := 0
  typical_channels : List String := []
  typical_hours : List ℤ := []
  typical_locations : List String := []
  last_transaction_time : Option ℚ := none
  recent_transaction_amounts : List ℚ := []
  recent_transaction_times : List ℚ := []
  account_age_days : ℤ := 0
  kyc_verified : Bool := false
  risk_score_history : List ℚ := []
deriving Repr, DecidableEq

/-- `CustomerProfile.update_with_transaction` (lines 96–120): append to the
recent windows, pop the oldest entry when the window exceeds 50, recompute
mean/variance, grow the "typical" sets, remember the timestamp. -/
def CustomerProfile.update_with_transaction (p : CustomerProfile)
    (amount : ℚ) (channel : String) (hour : ℤ) (location : String)
    (timestamp : ℚ) : CustomerProfile :=
  let amounts0 := p.recent_transaction_amounts ++ [amount]
  let times0 := p.recent_transaction_times ++ [timestamp]
  let pop := 50 < amounts0.length
  let amounts := if pop then amounts0.drop 1 else amounts0
  let times := if pop then times0.drop 1 else times0
  { p with
    recent_transaction_amounts := amounts
    recent_transaction_times := times
    total_transactions := p.total_transactions + 1
    avg_transaction_amount := listMean amounts
    var_transaction_amount := if 1 < amounts.length then listVar amounts else 0
    typical_channels :=
      if channel ∈ p.typical_channels then p.typical_channels
      else p.typical_channels ++ [channel]
    typical_hours :=
      if hour ∈ p.typical_hours then p.typical_hours
      else p.typical_hours ++ [hour]
    typical_locations :=
      if location ≠ "" ∧ location ∉ p.typical_locations then
        p.typical_locations ++ [location]
      else p.typical_locations
    last_transaction_time := some timestamp }

/-!
Configurable thresholds (`self.thresholds`, lines 180–191).
-/

def high_value_amount : ℚ := 50000
def medium_value_amount : ℚ := 20000
def new_account_days : ℤ := 30
def very_new_account_days : ℤ := 7
def unusual_hours : List ℤ := [0, 1, 2, 3, 4, 5]
def high_risk_probability : ℚ := 7/10
def medium_risk_probability : ℚ := 4/10
def velocity_window_minutes : ℚ := 60
def velocity_threshold : ℕ := 10
def amount_deviation_threshold : ℚ := 3

/-- `_apply_business_rules` (lines 340–374). -/
def apply_business_rules (amount : ℚ) (channel : String) (hour : ℤ)
    (account_age_days : ℤ) (kyc_verified : String) : List Flag :=
  let kyc_ok := pyLower kyc_verified = "yes"
  (if medium_value_amount < amount ∧ account_age_days < new_account_days then
    [.HIGH_VALUE_NEW_ACCOUNT] else []) ++
  (if ¬kyc_ok ∧ 5000 < amount then [.UNVERIFIED_KYC_HIGH_AMOUNT] else []) ++
  (if hour ∈ unusual_hours ∧ 3000 < amount then
    [.UNUSUAL_HOUR_TRANSACTION] else []) ++
  (if high_value_amount < amount then [.VERY_HIGH_AMOUNT] else []) ++
  (if account_age_days < very_new_account_days ∧ ¬kyc_ok then
    [.NEW_ACCOUNT_UNVERIFIED] else []) ++
  (if (pyLower channel = "atm" ∨ pyLower channel = "pos") ∧ 20000 < amount then
    [.HIGH_ATM_POS_WITHDRAWAL] else []) ++
  (if account_age_days < 14 ∧ 10000 < amount then
    [.NEW_ACCOUNT_HIGH_VALUE] else [])

/-- Python truthiness of the optional `location` argument
(`None` and `""` are falsy). -/
def locTruthy : Option String → Bool
  | none => false
  | some l => l ≠ ""

/-- `location or "Unknown"` (analyze_transaction line 283). -/
def locOrUnknown : Option String → String
  | none => "Unknown"
  | some l => if l = "" then "Unknown" else l

/-- The `time_diff < timedelta(minutes=5)` test of `_analyze_behavior`
(lines 412–414), guarded by `profile.last_transaction_time` being set. -/
def rapid_since_last (last : Option ℚ) (timestamp : ℚ) : Bool :=
  match last with
  | some t => decide (timestamp - t < 5)
  | none => false

/-- `_analyze_behavior` (lines 376–423).  The z-score comparison
`|amount - avg| / std > 3` (guarded by `std > 0`) is expressed with the
stored variance as `(amount - avg)² > 3² · var` (guarded by `var > 0`). -/
def analyze_behavior (profile : CustomerProfile) (amount : ℚ)
    (channel : String) (hour : ℤ) (location : Option String)
    (timestamp : ℚ) : List Flag :=
  if profile.total_transactions < 5 then []
  else
    (if 0 < profile.var_transaction_amount ∧
        amount_deviation_threshold ^ 2 * profile.var_transaction_amount <
          (amount - profile.avg_transaction_amount) ^ 2 then
      [.AMOUNT_DEVIATION] else []) ++
    (if profile.avg_transaction_amount * 5 < amount then
      [.AMOUNT_5X_AVERAGE] else []) ++
    (if profile.typical_channels ≠ [] ∧ channel ∉ profile.typical_channels then
      [.NEW_CHANNEL_USED] else []) ++
    (if profile.typical_hours ≠ [] ∧ hour ∉ profile.typical_hours ∧
        4 < (profile.typical_hours.map (fun h => |hour - h|)).foldr min
          (4 + 1) then
      [.UNUSUAL_HOUR_FOR_CUSTOMER] else []) ++
    (if locTruthy location ∧ profile.typical_locations ≠ [] ∧
        location.getD "" ∉ profile.typical_locations then
      [.NEW_LOCATION_DETECTED] else []) ++
    (if rapid_since_last profile.last_transaction_time timestamp ∧
        10000 < amount then
      [.RAPID_HIGH_VALUE_TRANSACTION] else []) ++
    (if 20 < (profile.recent_transaction_times.filter
        (fun t => timestamp - t < 24 * 60)).length then
      [.ACTIVITY_SPIKE_24H] else [])

/-!
`FraudSignature.SIGNATURES` constants (lines 126–157).
-/

def sig_round_amounts : List ℚ := [10000, 20000, 25000, 50000, 75000, 100000]
def sig_round_tolerance : ℚ := 100
def sig_limits : List ℚ := [10000, 50000, 100000, 200000]
def sig_margin : ℚ := 500
def sig_midnight_hours : List ℤ := [0, 1, 2, 3, 4]
def sig_midnight_min_amount : ℚ := 20000
def sig_burst_max_account_age_days : ℤ := 7
def sig_burst_min_transactions : ℕ := 5
def sig_rapid_threshold_count : ℕ := 5
def sig_rapid_threshold_minutes : ℚ := 10

/-- `_match_fraud_signatures` (lines 425–462). -/
def match_fraud_signatures (profile : CustomerProfile) (amount : ℚ)
    (hour : ℤ) (timestamp : ℚ) : List Flag :=
  (if sig_round_amounts.any (fun r => |amount - r| ≤ sig_round_tolerance) then
    [.ROUND_AMOUNT_SUSPICIOUS] else []) ++
  (if sig_limits.any (fun l => l - sig_margin ≤ amount ∧ amount < l) then
    [.JUST_BELOW_REPORTING_LIMIT] else []) ++
  (if hour ∈ sig_midnight_hours ∧ sig_midnight_min_amount ≤ amount then
    [.MIDNIGHT_HIGH_VALUE_TRANSACTION] else []) ++
  (if profile.account_age_days ≤ sig_burst_max_account_age_days ∧
      sig_burst_min_transactions ≤ profile.total_transactions then
    [.NEW_ACCOUNT_BURST_ACTIVITY] else []) ++
  (if sig_rapid_threshold_count ≤ (profile.recent_transaction_times.filter
      (fun t => timestamp - t ≤ sig_rapid_threshold_minutes)).length then
    [.RAPID_FIRE_TRANSACTIONS] else [])

/-- The pruned timestamp list of `_check_velocity` (lines 468–473): keep
entries within the trailing `velocity_window_minutes` window. -/
def prune_velocity (entries : List ℚ) (timestamp : ℚ) : List ℚ :=
  entries.filter (fun t => timestamp - t ≤ velocity_window_minutes)

/-- The flags of `_check_velocity` (lines 475–481), computed from the
pruned count (`velocity >= 10` / `velocity >= 10 * 0.7`). -/
def velocity_flags_of_count (velocity : ℕ) : List Flag :=
  if velocity_threshold ≤ velocity then [.VELOCITY_LIMIT_EXCEEDED]
  else if (velocity_threshold : ℚ) * (7/10) ≤ (velocity : ℚ) then
    [.VELOCITY_WARNING]
  else []

/-- `_check_velocity` (lines 464–482): prune the customer's entry list,
store it back, and derive the flags from the pruned count.  Returns the
flags together with the updated velocity map. -/
def check_velocity (velocity_map : List (String × List ℚ))
    (customer_id : String) (timestamp : ℚ) :
    List Flag × List (String × List ℚ) :=
  let pruned := prune_velocity ((dictGet velocity_map customer_id).getD []) timestamp
  (velocity_flags_of_count pruned.length, dictSet velocity_map customer_id pruned)

/-- `_update_velocity` (lines 484–486): append the timestamp. -/
def update_velocity (velocity_map : List (String × List ℚ))
    (customer_id : String) (timestamp : ℚ) : List (String × List ℚ) :=
  dictSet velocity_map customer_id
    (((dictGet velocity_map customer_id).getD []) ++ [timestamp])

/-- `_calculate_composite_risk` (lines 488–530). -/
def calculate_composite_risk (ml_probability : ℚ) (rule_count : ℕ)
    (behavioral_count : ℕ) (signature_count : ℕ) (velocity_count : ℕ) : ℚ :=
  let rule_score := min ((rule_count : ℚ) / 3) 1
  let behavioral_score := min ((behavioral_count : ℚ) / 3) 1
  let signature_score := min ((signature_count : ℚ) / 2) 1
  let velocity_score := min ((velocity_count : ℚ) / 2) 1
  let composite := 35/100 * ml_probability + 25/100 * rule_score +
    20/100 * behavioral_score + 15/100 * signature_score +
    5/100 * velocity_score
  let active_signals : ℕ :=
    (if 1/2 < ml_probability then 1 else 0) +
    (if 0 < rule_count then 1 else 0) +
    (if 0 < behavioral_count then 1 else 0) +
    (if 0 < signature_count then 1 else 0) +
    (if 0 < velocity_count then 1 else 0)
  let composite :=
    if 4 ≤ active_signals then min (composite * (13/10)) 1
    else if 3 ≤ active_signals then min (composite * (115/100)) 1
    else composite
  min (max composite 0) 1

/-- `_determine_risk_level` (lines 532–540). -/
def determine_risk_level (risk_score : ℚ) : RiskLevel :=
  if 85/100 ≤ risk_score then .Critical
  else if 7/10 ≤ risk_score then .High
  else if 4/10 ≤ risk_score then .Medium
  else .Low

/-- An alert record (lines 45–59, 542–568).  The `alert_id` is modelled by
the counter value (the source prefixes it with the formatted date); the
message and details render strings and are elided. -/
structure Alert where
  alert_id : ℕ
  transaction_id : String
  customer_id : String
  alert_type : AlertType
  severity : RiskLevel
  amount : ℚ
  flags : List Flag
  timestamp : ℚ
deriving Repr, DecidableEq

/-- `_determine_primary_alert_type` (lines 586–604): first matching
priority class wins. -/
def determine_primary_alert_type (flags : List Flag) : AlertType :=
  if Flag.VELOCITY_LIMIT_EXCEEDED ∈ flags ∨ Flag.RAPID_FIRE_TRANSACTIONS ∈ flags
    then .VELOCITY_SPIKE
  else if Flag.NEW_LOCATION_DETECTED ∈ flags then .GEOGRAPHIC_ANOMALY
  else if Flag.AMOUNT_DEVIATION ∈ flags ∨ Flag.AMOUNT_5X_AVERAGE ∈ flags
    then .AMOUNT_DEVIATION
  else if Flag.ROUND_AMOUNT_SUSPICIOUS ∈ flags ∨
      Flag.JUST_BELOW_REPORTING_LIMIT ∈ flags then .FRAUD_SIGNATURE_MATCH
  else if Flag.UNUSUAL_HOUR_TRANSACTION ∈ flags ∨
      Flag.MIDNIGHT_HIGH_VALUE_TRANSACTION ∈ flags then .UNUSUAL_HOUR
  else if Flag.HIGH_VALUE_NEW_ACCOUNT ∈ flags ∨
      Flag.NEW_ACCOUNT_BURST_ACTIVITY ∈ flags then .NEW_ACCOUNT_RISK
  else if Flag.UNVERIFIED_KYC_HIGH_AMOUNT ∈ flags ∨
      Flag.NEW_ACCOUNT_UNVERIFIED ∈ flags then .KYC_VIOLATION
  else if Flag.VERY_HIGH_AMOUNT ∈ flags ∨
      Flag.HIGH_ATM_POS_WITHDRAWAL ∈ flags then .HIGH_VALUE_TRANSACTION
  else .PATTERN_DEVIATION

/-- The risk factors of `_generate_risk_factors` (lines 635–676), as tags
(the source renders them as strings with formatted amounts). -/
inductive RiskFactor
  | ExtremelyHighAmount
  | VeryHighTransaction
  | HighValueTransaction
  | CriticalUnverifiedKyc
  | UnverifiedKycAccount
  | VeryNewAccount
  | RecentlyCreatedAccount
  | UnusualTime
  | VelocityExceeded
  | AmountDeviates
  | RapidTransactions
  | StructuringAttempt
deriving Repr, DecidableEq, Inhabited

/-- `_generate_risk_factors` (lines 635–676): ordered factor list,
truncated to the top 5. -/
def generate_risk_factors (flags : List Flag) (amount : ℚ)
    (account_age_days : ℤ) (hour : ℤ) (kyc_verified : String) :
    List RiskFactor :=
  let factors : List RiskFactor :=
    (if 5000000 ≤ amount then [.ExtremelyHighAmount]
     else if high_value_amount < amount then [.VeryHighTransaction]
     else if medium_value_amount < amount then [.HighValueTransaction]
     else []) ++
    (if pyLower kyc_verified ≠ "yes" then
      (if 100000 ≤ amount then [.CriticalUnverifiedKyc]
       else [.UnverifiedKycAccount])
     else []) ++
    (if account_age_days < very_new_account_days then [.VeryNewAccount]
     else if account_age_days < new_account_days then [.RecentlyCreatedAccount]
     else []) ++
    (if hour ∈ unusual_hours then [.UnusualTime] else []) ++
    (if Flag.VELOCITY_LIMIT_EXCEEDED ∈ flags then [.VelocityExceeded] else []) ++
    (if Flag.AMOUNT_DEVIATION ∈ flags then [.AmountDeviates] else []) ++
    (if Flag.RAPID_FIRE_TRANSACTIONS ∈ flags then [.RapidTransactions] else []) ++
    (if Flag.JUST_BELOW_REPORTING_LIMIT ∈ flags then [.StructuringAttempt] else [])
  factors.take 5

/-- The explanation text of `analyze_transaction` (lines 291–301), as a
tag carrying the data the source interpolates. -/
inductive Explanation
  | fraudDetected (factors : List RiskFactor)
  | fraudAlert (factor : RiskFactor)
  | suspicious (risk_score : ℚ)
  | approved (level : RiskLevel) (risk_score : ℚ)
deriving Repr, DecidableEq

/-- The result record of `analyze_transaction` (lines 303–327). -/
structure AnalysisResult where
  transaction_id : String
  customer_id : String
  prediction : String
  is_fraud : ℕ
  risk_score : ℚ
  fraud_probability : ℚ
  risk_level : String
  confidence : ℚ
  explanation : Explanation
  rule_flags : List Flag
  behavioral_flags : List Flag
  signature_flags : List Flag
  velocity_flags : List Flag
  all_flags : List Flag
  alerts_generated : ℕ
  alert_ids : List ℕ
  risk_factors : List RiskFactor
  profile_total_transactions : ℕ
  profile_fraud_incidents : ℕ
  profile_avg_transaction_amount : ℚ
  profile_account_age_days : ℤ
deriving Repr, DecidableEq

/-- The engine's mutable state (lines 171–177). -/
structure EngineState where
  customer_profiles : List (String × CustomerProfile) := []
  alerts : List Alert := []
  alert_counter : ℕ := 0
  transaction_velocity : List (String × List ℚ) := []
deriving Repr, DecidableEq

/-- `_get_or_create_profile` (lines 329–338): the profile map after
ensuring a profile exists for `customer_id` (created from the *current*
transaction's `account_age_days`/`kyc_verified` only when absent). -/
def get_or_create_profile (profiles : List (String × CustomerProfile))
    (customer_id : String) (account_age_days : ℤ) (kyc_verified : String) :
    List (String × CustomerProfile) :=
  match dictGet profiles customer_id with
  | some _ => profiles
  | none =>
      dictSet profiles customer_id
        { customer_id := customer_id
          account_age_days := account_age_days
          kyc_verified := pyLower kyc_verified = "yes" }

/-- The decision-override block of `analyze_transaction` (lines 240–261),
written as the source's sequence of mutations.  Returns
`(is_fraud, risk_score, risk_level)`. -/
def decision_override (risk_score0 : ℚ) (risk_level0 : RiskLevel)
    (rule_count : ℕ) (critical_combination : Bool) :
    Bool × ℚ × RiskLevel :=
  let is_fraud1 : Bool := decide (medium_risk_probability ≤ risk_score0)
  let is_fraud2 := if 3 ≤ rule_count then true else is_fraud1
  let risk_score1 :=
    if 3 ≤ rule_count ∧ critical_combination then max risk_score0 (75/100)
    else risk_score0
  let risk_level1 :=
    if 3 ≤ rule_count ∧ critical_combination then determine_risk_level risk_score1
    else risk_level0
  let is_fraud3 := if critical_combination then true else is_fraud2
  let risk_score2 :=
    if critical_combination then max risk_score1 (8/10) else risk_score1
  let risk_level2 :=
    if critical_combination then determine_risk_level risk_score2
    else risk_level1
  (is_fraud3, risk_score2, risk_level2)

/-- The alerting block of `analyze_transaction` (lines 263–280) together
with `_generate_alerts` (lines 542–584): decide whether to alert, escalate
the alert severity, and emit one alert with the incremented counter.
Returns `(generated alerts, new counter)`. -/
def generate_alerts_block (transaction_id customer_id : String)
    (amount : ℚ) (risk_level : RiskLevel) (all_flags : List Flag)
    (timestamp : ℚ) (alert_counter : ℕ) : List Alert × ℕ :=
  let should_alert :=
    risk_level = .High ∨ risk_level = .Critical ∨ 3 ≤ all_flags.length ∨
    (risk_level = .Medium ∧ 2 ≤ all_flags.length)
  if should_alert then
    let alert_severity :=
      if 4 ≤ all_flags.length ∧ risk_level = .Low then RiskLevel.Medium
      else if 3 ≤ all_flags.length ∧ risk_level = .Low then RiskLevel.Medium
      else risk_level
    let counter := alert_counter + 1
    ([{ alert_id := counter
        transaction_id := transaction_id
        customer_id := customer_id
        alert_type := determine_primary_alert_type all_flags
        severity := alert_severity
        amount := amount
        flags := all_flags
        timestamp := timestamp }], counter)
  else ([], alert_counter)

/-- `analyze_transaction` (lines 195–327).  The optional `timestamp`
defaults to the processing time in the source and is a required argument
here; `ml_probability or 0.0` is the caller-supplied probability. -/
def analyze_transaction (s : EngineState) (transaction_id customer_id : String)
    (amount : ℚ) (channel : String) (hour : ℤ) (account_age_days : ℤ)
    (kyc_verified : String) (location : Option String) (timestamp : ℚ)
    (ml_probability : ℚ) : AnalysisResult × EngineState :=
  let profiles1 :=
    get_or_create_profile s.customer_profiles customer_id account_age_days
      kyc_verified
  let profile := (dictGet profiles1 customer_id).getD
    { customer_id := customer_id }
  let rule_flags := apply_business_rules amount channel hour account_age_days
    kyc_verified
  let behavioral_flags := analyze_behavior profile amount channel hour location
    timestamp
  let signature_flags := match_fraud_signatures profile amount hour timestamp
  let vf := check_velocity s.transaction_velocity customer_id timestamp
  let velocity_flags := vf.1
  let velocity1 := vf.2
  let all_flags := rule_flags ++ behavioral_flags ++ signature_flags ++
    velocity_flags
  let risk_score0 := calculate_composite_risk ml_probability rule_flags.length
    behavioral_flags.length signature_flags.length velocity_flags.length
  let risk_level0 := determine_risk_level risk_score0
  let critical_combination : Bool :=
    decide (Flag.VERY_HIGH_AMOUNT ∈ all_flags ∧
      Flag.UNVERIFIED_KYC_HIGH_AMOUNT ∈ all_flags)
  let dec := decision_override risk_score0 risk_level0 rule_flags.length
    critical_combination
  let is_fraud := dec.1
  let risk_score := dec.2.1
  let risk_level := dec.2.2
  let ga := generate_alerts_block transaction_id customer_id amount risk_level
    all_flags timestamp s.alert_counter
  let generated_alerts := ga.1
  let counter1 := ga.2
  let profile1 := profile.update_with_transaction amount channel hour
    (locOrUnknown location) timestamp
  let profile2 := { profile1 with
    risk_score_history := profile1.risk_score_history ++ [risk_score]
    fraud_incidents := profile1.fraud_incidents + (if is_fraud then 1 else 0) }
  let risk_factors_list := generate_risk_factors all_flags amount
    account_age_days hour kyc_verified
  let explanation :=
    if is_fraud then
      if 2 ≤ risk_factors_list.length then
        Explanation.fraudDetected (risk_factors_list.take 3)
      else if risk_factors_list.length = 1 then
        Explanation.fraudAlert (risk_factors_list.headI)
      else Explanation.suspicious risk_score
    else Explanation.approved risk_level risk_score
  (({ transaction_id := transaction_id
      customer_id := customer_id
      prediction := if is_fraud then "Fraud" else "Legitimate"
      is_fraud := if is_fraud then 1 else 0
      risk_score := roundq 4 risk_score
      fraud_probability := roundq 4 risk_score
      risk_level := risk_level.value
      confidence := roundq 2 (|risk_score - 1/2| * 200)
      explanation := explanation
      rule_flags := rule_flags
      behavioral_flags := behavioral_flags
      signature_flags := signature_flags
      velocity_flags := velocity_flags
      all_flags := all_flags
      alerts_generated := generated_alerts.length
      alert_ids := generated_alerts.map Alert.alert_id
      risk_factors := risk_factors_list
      profile_total_transactions := profile2.total_transactions
      profile_fraud_incidents := profile2.fraud_incidents
      profile_avg_transaction_amount := roundq 2 profile2.avg_transaction_amount
      profile_account_age_days := account_age_days } : AnalysisResult),
   ({ customer_profiles := dictSet profiles1 customer_id profile2
      alerts := s.alerts ++ generated_alerts
      alert_counter := counter1
      transaction_velocity := update_velocity velocity1 customer_id timestamp }
    : EngineState))

end Engine

/-!
## Specification-side definitions and helper lemmas
-/

/-- The composite-risk formula as claim C1 words it: the weighted sum with
saturation caps, multiplied by 1.3 (capped at 1.0) when at least 4 signal
sources are active, multiplied by 1.15 (no cap stated) when exactly 3 are
active. -/
def spec_composite_risk (p : ℚ) (r b s v : ℕ) : ℚ :=
  let w := 35/100 * p + 25/100 * min ((r : ℚ) / 3) 1 +
    20/100 * min ((b : ℚ) / 3) 1 + 15/100 * min ((s : ℚ) / 2) 1 +
    5/100 * min ((v : ℚ) / 2) 1
  let active : ℕ :=
    (if 1/2 < p then 1 else 0) + (if 0 < r then 1 else 0) +
    (if 0 < b then 1 else 0) + (if 0 < s then 1 else 0) +
    (if 0 < v then 1 else 0)
  if 4 ≤ active then min (w * (13/10)) 1
  else if active = 3 then w * (115/100)
  else w

namespace Engine

/-- The composite score is nonnegative (final clamp). -/
lemma calculate_composite_risk_nonneg (p : ℚ) (r b s v : ℕ) :
    0 ≤ calculate_composite_risk p r b s v := by
  unfold calculate_composite_risk
  exact le_min (le_max_right _ _) zero_le_one

/-- The composite score is at most one (final clamp). -/
lemma calculate_composite_risk_le_one (p : ℚ) (r b s v : ℕ) :
    calculate_composite_risk p r b s v ≤ 1 :=
  min_le_right _ _

/-- When exactly three of five weighted signals are active, the weighted
sum is at most 4/5 (so the 1.15 boost cannot reach the 1.0 cap). -/
lemma three_active_weight_bound_aux (p rs bs ss vs : ℚ)
    (c1 c2 c3 c4 c5 : Prop) [Decidable c1] [Decidable c2] [Decidable c3]
    [Decidable c4] [Decidable c5]
    (hp0 : 0 ≤ p) (hp1 : p ≤ 1)
    (hrs0 : 0 ≤ rs) (hrs1 : rs ≤ 1) (hbs0 : 0 ≤ bs) (hbs1 : bs ≤ 1)
    (hss0 : 0 ≤ ss) (hss1 : ss ≤ 1) (hvs0 : 0 ≤ vs) (hvs1 : vs ≤ 1)
    (h1 : ¬c1 → p ≤ 1/2) (h2 : ¬c2 → rs = 0) (h3 : ¬c3 → bs = 0)
    (h4 : ¬c4 → ss = 0) (h5 : ¬c5 → vs = 0)
    (hA : ((if c1 then 1 else 0) + (if c2 then 1 else 0) +
      (if c3 then 1 else 0) + (if c4 then 1 else 0) +
      (if c5 then 1 else 0) : ℕ) = 3) :
    35/100 * p + 25/100 * rs + 20/100 * bs + 15/100 * ss + 5/100 * vs ≤ 4/5 := by
  by_cases hc1 : c1 <;> by_cases hc2 : c2 <;> by_cases hc3 : c3 <;>
    by_cases hc4 : c4 <;> by_cases hc5 : c5 <;>
    simp_all <;> linarith

end Engine

/-- Claim C1: for every `ml_probability` in [0,1] and all flag counts, the
composite risk score of `FraudDetectionEngine._calculate_composite_risk`
equals the spec's formula — weighted sum (weights 0.35/0.25/0.20/0.15/0.05,
saturation caps 3/3/2/2), then ×1.3 capped at 1.0 when at least 4 signal
sources are active, ×1.15 when exactly 3 are active — and the result always
lies in [0,1]. -/
theorem composite_risk_matches_spec_and_bounded (p : ℚ) (r b s v : ℕ)
    (hp0 : 0 ≤ p) (hp1 : p ≤ 1) :
    Engine.calculate_composite_risk p r b s v = spec_composite_risk p r b s v ∧
    0 ≤ Engine.calculate_composite_risk p r b s v ∧
    Engine.calculate_composite_risk p r b s v ≤ 1 := by
  refine ⟨?_, Engine.calculate_composite_risk_nonneg p r b s v,
    Engine.calculate_composite_risk_le_one p r b s v⟩
  have hr0 : (0:ℚ) ≤ min ((r : ℚ) / 3) 1 := le_min (by positivity) zero_le_one
  have hr1 : min ((r : ℚ) / 3) 1 ≤ 1 := min_le_right _ _
  have hb0 : (0:ℚ) ≤ min ((b : ℚ) / 3) 1 := le_min (by positivity) zero_le_one
  have hb1 : min ((b : ℚ) / 3) 1 ≤ 1 := min_le_right _ _
  have hs0 : (0:ℚ) ≤ min ((s : ℚ) / 2) 1 := le_min (by positivity) zero_le_one
  have hs1 : min ((s : ℚ) / 2) 1 ≤ 1 := min_le_right _ _
  have hv0 : (0:ℚ) ≤ min ((v : ℚ) / 2) 1 := le_min (by positivity) zero_le_one
  have hv1 : min ((v : ℚ) / 2) 1 ≤ 1 := min_le_right _ _
  have hw0 : (0:ℚ) ≤ 35/100 * p + 25/100 * min ((r : ℚ) / 3) 1 +
      20/100 * min ((b : ℚ) / 3) 1 + 15/100 * min ((s : ℚ) / 2) 1 +
      5/100 * min ((v : ℚ) / 2) 1 := by linarith
  have hw1 : 35/100 * p + 25/100 * min ((r : ℚ) / 3) 1 +
      20/100 * min ((b : ℚ) / 3) 1 + 15/100 * min ((s : ℚ) / 2) 1 +
      5/100 * min ((v : ℚ) / 2) 1 ≤ 1 := by linarith
  simp only [Engine.calculate_composite_risk, spec_composite_risk]
  by_cases h4 : 4 ≤ ((if 1/2 < p then 1 else 0) + (if 0 < r then 1 else 0) +
      (if 0 < b then 1 else 0) + (if 0 < s then 1 else 0) +
      (if 0 < v then 1 else 0) : ℕ)
  · simp only [h4, if_true]
    have hx0 : (0:ℚ) ≤ min ((35/100 * p + 25/100 * min ((r : ℚ) / 3) 1 +
        20/100 * min ((b : ℚ) / 3) 1 + 15/100 * min ((s : ℚ) / 2) 1 +
        5/100 * min ((v : ℚ) / 2) 1) * (13/10)) 1 :=
      le_min (by nlinarith) zero_le_one
    rw [max_eq_left hx0, min_eq_left (min_le_right _ _)]
  · by_cases h3 : 3 ≤ ((if 1/2 < p then 1 else 0) + (if 0 < r then 1 else 0) +
        (if 0 < b then 1 else 0) + (if 0 < s then 1 else 0) +
        (if 0 < v then 1 else 0) : ℕ)
    · have he3 : ((if 1/2 < p then 1 else 0) + (if 0 < r then 1 else 0) +
          (if 0 < b then 1 else 0) + (if 0 < s then 1 else 0) +
          (if 0 < v then 1 else 0) : ℕ) = 3 := by omega
      rw [if_neg h4, if_pos h3, if_neg h4, if_pos he3]
      have hkey := Engine.three_active_weight_bound_aux p
        (min ((r : ℚ) / 3) 1) (min ((b : ℚ) / 3) 1) (min ((s : ℚ) / 2) 1)
        (min ((v : ℚ) / 2) 1)
        ((1:ℚ)/2 < p) (0 < r) (0 < b) (0 < s) (0 < v)
        hp0 hp1 hr0 hr1 hb0 hb1 hs0 hs1 hv0 hv1
        (fun h => not_lt.mp h)
        (fun h => by
          have : r = 0 := by omega
          simp [this])
        (fun h => by
          have : b = 0 := by omega
          simp [this])
        (fun h => by
          have : s = 0 := by omega
          simp [this])
        (fun h => by
          have : v = 0 := by omega
          simp [this])
        he3
      have hm : (35/100 * p + 25/100 * min ((r : ℚ) / 3) 1 +
          20/100 * min ((b : ℚ) / 3) 1 + 15/100 * min ((s : ℚ) / 2) 1 +
          5/100 * min ((v : ℚ) / 2) 1) * (115/100) ≤ 1 := by nlinarith
      rw [min_eq_left hm, max_eq_left (by nlinarith), min_eq_left (by nlinarith)]
    · have hne : ¬ ((if 1/2 < p then 1 else 0) + (if 0 < r then 1 else 0) +
          (if 0 < b then 1 else 0) + (if 0 < s then 1 else 0) +
          (if 0 < v then 1 else 0) : ℕ) = 3 := by omega
      simp only [h4, h3, hne, if_false]
      rw [max_eq_left hw0, min_eq_left hw1]

/-- Witness for C1 at p = 0.3 and counts (1, 0, 2, 0). -/
theorem composite_risk_matches_spec_and_bounded_witness :
    (0 ≤ (3/10 : ℚ)) ∧ ((3/10 : ℚ) ≤ 1) ∧
    (Engine.calculate_composite_risk (3/10) 1 0 2 0 =
        spec_composite_risk (3/10) 1 0 2 0 ∧
      0 ≤ Engine.calculate_composite_risk (3/10) 1 0 2 0 ∧
      Engine.calculate_composite_risk (3/10) 1 0 2 0 ≤ 1) :=
  ⟨by norm_num, by norm_num,
    composite_risk_matches_spec_and_bounded (3/10) 1 0 2 0 (by norm_num)
      (by norm_num)⟩

namespace Engine

/-!
Named views of `analyze_transaction`'s intermediate values, used to state
field-level lemmas.  Each is definitionally equal to the corresponding
`let`-binding inside `analyze_transaction`.
-/

/-- The profile `analyze_transaction` works with: the stored one when it
exists, else the one freshly created from the current transaction. -/
def profile_for (s : EngineState) (customer_id : String)
    (account_age_days : ℤ) (kyc_verified : String) : CustomerProfile :=
  (dictGet (get_or_create_profile s.customer_profiles customer_id
    account_age_days kyc_verified) customer_id).getD
    { customer_id := customer_id }

/-- The decision triple `(is_fraud, risk_score, risk_level)` that
`analyze_transaction` computes (composite scoring plus overrides). -/
def decision_for (s : EngineState) (customer_id : String) (amount : ℚ)
    (channel : String) (hour : ℤ) (account_age_days : ℤ)
    (kyc_verified : String) (location : Option String) (timestamp : ℚ)
    (ml_probability : ℚ) : Bool × ℚ × RiskLevel :=
  let profile := profile_for s customer_id account_age_days kyc_verified
  let rule_flags := apply_business_rules amount channel hour account_age_days
    kyc_verified
  let behavioral_flags := analyze_behavior profile amount channel hour location
    timestamp
  let signature_flags := match_fraud_signatures profile amount hour timestamp
  let velocity_flags := (check_velocity s.transaction_velocity customer_id
    timestamp).1
  let all_flags := rule_flags ++ behavioral_flags ++ signature_flags ++
    velocity_flags
  let risk_score0 := calculate_composite_risk ml_probability rule_flags.length
    behavioral_flags.length signature_flags.length velocity_flags.length
  decision_override risk_score0 (determine_risk_level risk_score0)
    rule_flags.length
    (decide (Flag.VERY_HIGH_AMOUNT ∈ all_flags ∧
      Flag.UNVERIFIED_KYC_HIGH_AMOUNT ∈ all_flags))

section FieldLemmas

variable (s : EngineState) (tid cid : String) (amount : ℚ) (channel : String)
  (hour age : ℤ) (kyc : String) (loc : Option String) (ts p : ℚ)

lemma analyze_rule_flags :
    (analyze_transaction s tid cid amount channel hour age kyc loc ts p).1.rule_flags =
    apply_business_rules amount channel hour age kyc := rfl

lemma analyze_behavioral_flags :
    (analyze_transaction s tid cid amount channel hour age kyc loc ts p).1.behavioral_flags =
    analyze_behavior (profile_for s cid age kyc) amount channel hour loc ts := rfl

lemma analyze_signature_flags :
    (analyze_transaction s tid cid amount channel hour age kyc loc ts p).1.signature_flags =
    match_fraud_signatures (profile_for s cid age kyc) amount hour ts := rfl

lemma analyze_velocity_flags :
    (analyze_transaction s tid cid amount channel hour age kyc loc ts p).1.velocity_flags =
    (check_velocity s.transaction_velocity cid ts).1 := rfl

lemma analyze_all_flags :
    (analyze_transaction s tid cid amount channel hour age kyc loc ts p).1.all_flags =
    apply_business_rules amount channel hour age kyc ++
    analyze_behavior (profile_for s cid age kyc) amount channel hour loc ts ++
    match_fraud_signatures (profile_for s cid age kyc) amount hour ts ++
    (check_velocity s.transaction_velocity cid ts).1 := rfl

set_option maxHeartbeats 1600000 in
lemma analyze_is_fraud :
    (analyze_transaction s tid cid amount channel hour age kyc loc ts p).1.is_fraud =
    if (decision_for s cid amount channel hour age kyc loc ts p).1 then 1 else 0 := rfl

set_option maxHeartbeats 1600000 in
lemma analyze_prediction :
    (analyze_transaction s tid cid amount channel hour age kyc loc ts p).1.prediction =
    if (decision_for s cid amount channel hour age kyc loc ts p).1 then "Fraud"
    else "Legitimate" := rfl

set_option maxHeartbeats 1600000 in
lemma analyze_risk_score :
    (analyze_transaction s tid cid amount channel hour age kyc loc ts p).1.risk_score =
    roundq 4 (decision_for s cid amount channel hour age kyc loc ts p).2.1 := rfl

set_option maxHeartbeats 1600000 in
lemma analyze_fraud_probability :
    (analyze_transaction s tid cid amount channel hour age kyc loc ts p).1.fraud_probability =
    roundq 4 (decision_for s cid amount channel hour age kyc loc ts p).2.1 := rfl

set_option maxHeartbeats 1600000 in
lemma analyze_risk_level :
    (analyze_transaction s tid cid amount channel hour age kyc loc ts p).1.risk_level =
    ((decision_for s cid amount channel hour age kyc loc ts p).2.2).value := rfl

set_option maxHeartbeats 1600000 in
lemma analyze_confidence :
    (analyze_transaction s tid cid amount channel hour age kyc loc ts p).1.confidence =
    roundq 2 (|(decision_for s cid amount channel hour age kyc loc ts p).2.1 - 1/2| * 200) := rfl

lemma analyze_state_velocity :
    (analyze_transaction s tid cid amount channel hour age kyc loc ts p).2.transaction_velocity =
    update_velocity (check_velocity s.transaction_velocity cid ts).2 cid ts := rfl

end FieldLemmas

end Engine

/-!
## Claim C2: one-hot feature flags
-/

/-- One-hot accounting for a two-valued encoder keyed on a normalized
string. -/
lemma two_flag_sum (n : String) :
    ((if n = "no" then 1 else 0) + (if n = "yes" then 1 else 0) ≤ (1:ℕ)) ∧
    ((if n = "no" then 1 else 0) + (if n = "yes" then 1 else 0) = (1:ℕ) ↔
      n = "no" ∨ n = "yes") := by
  by_cases h1 : n = "no" <;> by_cases h2 : n = "yes" <;> simp_all

/-- One-hot accounting for the four-valued channel encoder keyed on a
normalized string. -/
lemma four_flag_sum (n : String) :
    ((if n = "atm" then 1 else 0) + (if n = "mobile" then 1 else 0) +
      (if n = "pos" then 1 else 0) + (if n = "web" then 1 else 0) ≤ (1:ℕ)) ∧
    ((if n = "atm" then 1 else 0) + (if n = "mobile" then 1 else 0) +
      (if n = "pos" then 1 else 0) + (if n = "web" then 1 else 0) = (1:ℕ) ↔
      n = "atm" ∨ n = "mobile" ∨ n = "pos" ∨ n = "web") := by
  by_cases h1 : n = "atm" <;> by_cases h2 : n = "mobile" <;>
    by_cases h3 : n = "pos" <;> by_cases h4 : n = "web" <;> simp_all

/-- Claim C2 (amended): the API feature builder's channel encoding
(`_channel_feature_flags`) sets exactly one of the four channel flags for
every input string (unmapped channels default to Web); its KYC encoding
(`_kyc_flags`) sets at most one of the two KYC flags, and exactly one
precisely when the normalized input (empty string defaulting to `"No"`)
is `"no"` or `"yes"` — an unrecognized KYC string sets zero flags.  The
preprocessor's `transform` sets at most one channel flag and at most one
KYC flag, each exactly one precisely when the normalized string is a
recognized value — unrecognized strings set zero flags there too. -/
theorem feature_flags_one_hot (channel kyc : String) :
    ((ApiMain.channel_feature_flags channel).atm +
      (ApiMain.channel_feature_flags channel).mobile +
      (ApiMain.channel_feature_flags channel).pos +
      (ApiMain.channel_feature_flags channel).web = 1) ∧
    ((ApiMain.kyc_flags kyc).no + (ApiMain.kyc_flags kyc).yes ≤ 1) ∧
    ((ApiMain.kyc_flags kyc).no + (ApiMain.kyc_flags kyc).yes = 1 ↔
      (pyLower (pyStrip (if kyc = "" then "No" else kyc)) = "no" ∨
       pyLower (pyStrip (if kyc = "" then "No" else kyc)) = "yes")) ∧
    ((Preproc.transform_channel_flags channel).atm +
      (Preproc.transform_channel_flags channel).mobile +
      (Preproc.transform_channel_flags channel).pos +
      (Preproc.transform_channel_flags channel).web ≤ 1) ∧
    ((Preproc.transform_channel_flags channel).atm +
      (Preproc.transform_channel_flags channel).mobile +
      (Preproc.transform_channel_flags channel).pos +
      (Preproc.transform_channel_flags channel).web = 1 ↔
      (pyStrip (pyLower channel) = "atm" ∨ pyStrip (pyLower channel) = "mobile" ∨
       pyStrip (pyLower channel) = "pos" ∨ pyStrip (pyLower channel) = "web")) ∧
    ((Preproc.transform_kyc_flags kyc).no + (Preproc.transform_kyc_flags kyc).yes ≤ 1) ∧
    ((Preproc.transform_kyc_flags kyc).no + (Preproc.transform_kyc_flags kyc).yes = 1 ↔
      (pyStrip (pyLower kyc) = "no" ∨ pyStrip (pyLower kyc) = "yes")) := by
  refine ⟨?_, ?_, ?_, ?_, ?_, ?_, ?_⟩
  · simp only [ApiMain.channel_feature_flags]
    split_ifs <;> rfl
  · simpa only [ApiMain.kyc_flags] using
      (two_flag_sum (pyLower (pyStrip (if kyc = "" then "No" else kyc)))).1
  · simpa only [ApiMain.kyc_flags] using
      (two_flag_sum (pyLower (pyStrip (if kyc = "" then "No" else kyc)))).2
  · simpa only [Preproc.transform_channel_flags] using
      (four_flag_sum (pyStrip (pyLower channel))).1
  · simpa only [Preproc.transform_channel_flags] using
      (four_flag_sum (pyStrip (pyLower channel))).2
  · simpa only [Preproc.transform_kyc_flags] using
      (two_flag_sum (pyStrip (pyLower kyc))).1
  · simpa only [Preproc.transform_kyc_flags] using
      (two_flag_sum (pyStrip (pyLower kyc))).2

/-- Counterexample for claim C2 as stated: the KYC string `"maybe"` sets
zero (not exactly one) KYC flags in both `_kyc_flags` and the
preprocessor, and the channel string `"UPI"` sets zero channel flags in
the preprocessor. -/
theorem feature_flags_one_hot_counterexample :
    ((ApiMain.kyc_flags "maybe").no + (ApiMain.kyc_flags "maybe").yes = 0) ∧
    ((Preproc.transform_kyc_flags "maybe").no +
      (Preproc.transform_kyc_flags "maybe").yes = 0) ∧
    ((Preproc.transform_channel_flags "UPI").atm +
      (Preproc.transform_channel_flags "UPI").mobile +
      (Preproc.transform_channel_flags "UPI").pos +
      (Preproc.transform_channel_flags "UPI").web = 0) := by decide

/-!
## Rounding and decision-override lemmas
-/

/-- `pyRound` never rounds below an integer lower bound. -/
lemma le_pyRound_of_le (n : ℤ) (x : ℚ) (h : (n : ℚ) ≤ x) : n ≤ pyRound x := by
  have hf : n ≤ ⌊x⌋ := Int.le_floor.mpr h
  simp only [pyRound]
  split_ifs <;> omega

/-- `pyRound` never rounds above an integer upper bound. -/
lemma pyRound_le_of_le (n : ℤ) (x : ℚ) (h : x ≤ (n : ℚ)) : pyRound x ≤ n := by
  have hf : ⌊x⌋ ≤ n := by
    have := Int.floor_le_floor h
    simpa using this
  simp only [pyRound]
  split_ifs with h1 h2 h3
  · exact hf
  all_goals {
    have hx : (⌊x⌋ : ℚ) + 1/2 ≤ x := by
      have := not_lt.mp h1
      linarith
    have hlt : ⌊x⌋ < n := by
      by_contra hc
      have he : ⌊x⌋ = n := le_antisymm hf (not_lt.mp hc)
      have : x ≤ (⌊x⌋ : ℚ) := by
        rw [he]
        exact_mod_cast h
      linarith
    omega
  }

/-- `roundq` respects rational lower bounds of the form `n / 10^d`. -/
lemma roundq_ge (d : ℕ) (n : ℤ) (x : ℚ) (h : (n : ℚ) ≤ x * 10 ^ d) :
    (n : ℚ) / 10 ^ d ≤ roundq d x := by
  unfold roundq
  have hp := le_pyRound_of_le n _ h
  have : (n : ℚ) ≤ (pyRound (x * 10 ^ d) : ℚ) := by exact_mod_cast hp
  gcongr

/-- `roundq` respects rational upper bounds of the form `n / 10^d`. -/
lemma roundq_le (d : ℕ) (n : ℤ) (x : ℚ) (h : x * 10 ^ d ≤ (n : ℚ)) :
    roundq d x ≤ (n : ℚ) / 10 ^ d := by
  unfold roundq
  have hp := pyRound_le_of_le n _ h
  have : (pyRound (x * 10 ^ d) : ℚ) ≤ (n : ℚ) := by exact_mod_cast hp
  gcongr

namespace Engine

/-- Three or more rule flags force the fraud decision. -/
lemma decision_override_fraud_of_rules (rs : ℚ) (rl : RiskLevel) (rc : ℕ)
    (crit : Bool) (h : 3 ≤ rc) : (decision_override rs rl rc crit).1 = true := by
  unfold decision_override
  cases crit <;> simp [h]

/-- The critical combination floors the (pre-rounding) score at 0.8. -/
lemma decision_override_crit_score (rs : ℚ) (rl : RiskLevel) (rc : ℕ) :
    8/10 ≤ (decision_override rs rl rc true).2.1 := by
  simp only [decision_override]
  by_cases h3 : 3 ≤ rc <;> simp [h3, le_max_right]

/-- Under the critical combination the returned level is recomputed from
the floored score. -/
lemma decision_override_crit_level (rs : ℚ) (rl : RiskLevel) (rc : ℕ) :
    (decision_override rs rl rc true).2.2 =
    determine_risk_level ((decision_override rs rl rc true).2.1) := by
  simp only [decision_override]
  by_cases h3 : 3 ≤ rc <;> simp [h3]

/-- Scores of at least 0.7 map to the High or Critical band. -/
lemma determine_risk_level_high_of (x : ℚ) (h : 7/10 ≤ x) :
    determine_risk_level x = .High ∨ determine_risk_level x = .Critical := by
  unfold determine_risk_level
  split_ifs with h1 h2 h3 <;> first | simp | linarith

/-- `decision_for` is fraud whenever the rule flags number three or more. -/
lemma decision_for_fraud_of_rules (s : EngineState) (cid : String)
    (amount : ℚ) (channel : String) (hour age : ℤ) (kyc : String)
    (loc : Option String) (ts p : ℚ)
    (h : 3 ≤ (apply_business_rules amount channel hour age kyc).length) :
    (decision_for s cid amount channel hour age kyc loc ts p).1 = true := by
  simp only [decision_for]
  exact decision_override_fraud_of_rules _ _ _ _ h

/-- With both critical flags among `all_flags`, `decision_for` floors the
score at 0.8 and recomputes the level from that score. -/
lemma decision_for_crit (s : EngineState) (cid : String) (amount : ℚ)
    (channel : String) (hour age : ℤ) (kyc : String) (loc : Option String)
    (ts p : ℚ)
    (hv : Flag.VERY_HIGH_AMOUNT ∈
      apply_business_rules amount channel hour age kyc ++
      analyze_behavior (profile_for s cid age kyc) amount channel hour loc ts ++
      match_fraud_signatures (profile_for s cid age kyc) amount hour ts ++
      (check_velocity s.transaction_velocity cid ts).1)
    (hu : Flag.UNVERIFIED_KYC_HIGH_AMOUNT ∈
      apply_business_rules amount channel hour age kyc ++
      analyze_behavior (profile_for s cid age kyc) amount channel hour loc ts ++
      match_fraud_signatures (profile_for s cid age kyc) amount hour ts ++
      (check_velocity s.transaction_velocity cid ts).1) :
    8/10 ≤ (decision_for s cid amount channel hour age kyc loc ts p).2.1 ∧
    (decision_for s cid amount channel hour age kyc loc ts p).2.2 =
      determine_risk_level
        ((decision_for s cid amount channel hour age kyc loc ts p).2.1) := by
  simp only [decision_for]
  rw [decide_eq_true (⟨hv, hu⟩ :
    Flag.VERY_HIGH_AMOUNT ∈ _ ∧ Flag.UNVERIFIED_KYC_HIGH_AMOUNT ∈ _)]
  exact ⟨decision_override_crit_score _ _ _,
    decision_override_crit_level _ _ _⟩

end Engine

/-!
## Claim C3: rule-count override and the critical combination
-/

/-- Literal-string normalization facts used in concrete evaluations. -/
lemma pyLower_No : pyLower "No" = "no" := by decide

lemma pyLower_Yes : pyLower "Yes" = "yes" := by decide

lemma pyLower_Web : pyLower "Web" = "web" := by decide

lemma pyLower_atm : pyLower "atm" = "atm" := by decide

lemma pyLowerStrip_No : pyLower (pyStrip "No") = "no" := by decide

lemma pyLowerStrip_Yes : pyLower (pyStrip "Yes") = "yes" := by decide

lemma str_yes_ne_no : ("yes" : String) ≠ "no" := by decide

lemma str_Medium_ne_Low : ("Medium" : String) ≠ "Low" := by decide

/-- Claim C3: in `analyze_transaction`, three or more rule flags force the
fraud decision regardless of the composite score; when additionally both
`VERY_HIGH_AMOUNT` and `UNVERIFIED_KYC_HIGH_AMOUNT` are among the flags,
the returned `risk_score` is at least 0.8 and the returned `risk_level`
is at least High. -/
theorem analyze_three_rule_flags_override (s : Engine.EngineState)
    (tid cid : String) (amount : ℚ) (channel : String) (hour age : ℤ)
    (kyc : String) (loc : Option String) (ts p : ℚ)
    (h3 : 3 ≤ (Engine.analyze_transaction s tid cid amount channel hour age
      kyc loc ts p).1.rule_flags.length) :
    (Engine.analyze_transaction s tid cid amount channel hour age kyc loc ts
      p).1.is_fraud = 1 ∧
    (Engine.analyze_transaction s tid cid amount channel hour age kyc loc ts
      p).1.prediction = "Fraud" ∧
    ((Engine.Flag.VERY_HIGH_AMOUNT ∈ (Engine.analyze_transaction s tid cid
        amount channel hour age kyc loc ts p).1.all_flags ∧
      Engine.Flag.UNVERIFIED_KYC_HIGH_AMOUNT ∈ (Engine.analyze_transaction s
        tid cid amount channel hour age kyc loc ts p).1.all_flags) →
      8/10 ≤ (Engine.analyze_transaction s tid cid amount channel hour age
        kyc loc ts p).1.risk_score ∧
      ((Engine.analyze_transaction s tid cid amount channel hour age kyc loc
        ts p).1.risk_level = "High" ∨
       (Engine.analyze_transaction s tid cid amount channel hour age kyc loc
        ts p).1.risk_level = "Critical")) := by
  rw [Engine.analyze_rule_flags] at h3
  have hf := Engine.decision_for_fraud_of_rules s cid amount channel hour age
    kyc loc ts p h3
  refine ⟨?_, ?_, ?_⟩
  · rw [Engine.analyze_is_fraud, hf]
    rfl
  · rw [Engine.analyze_prediction, hf]
    rfl
  · rintro ⟨hv, hu⟩
    rw [Engine.analyze_all_flags] at hv hu
    obtain ⟨hs8, hlvl⟩ := Engine.decision_for_crit s cid amount channel hour
      age kyc loc ts p hv hu
    constructor
    · rw [Engine.analyze_risk_score]
      have hq := roundq_ge 4 8000 _ (by push_cast; linarith)
      have he : (8:ℚ)/10 = ((8000:ℤ) : ℚ) / 10 ^ 4 := by norm_num
      rw [he]
      exact hq
    · rw [Engine.analyze_risk_level, hlvl]
      rcases Engine.determine_risk_level_high_of
          ((Engine.decision_for s cid amount channel hour age kyc loc ts
            p).2.1) (by linarith) with h | h <;>
        rw [h] <;> simp [Engine.RiskLevel.value]

/-- Witness for C3: amount 60000, 3-day-old account, unverified KYC, 02:00,
which raises six rule flags including the two critical ones. -/
theorem analyze_three_rule_flags_override_witness :
    (3 ≤ (Engine.analyze_transaction {} "t1" "c1" 60000 "Web" 2 3 "No" none 0
      (1/10)).1.rule_flags.length) ∧
    ((Engine.analyze_transaction {} "t1" "c1" 60000 "Web" 2 3 "No" none 0
      (1/10)).1.is_fraud = 1 ∧
    (Engine.analyze_transaction {} "t1" "c1" 60000 "Web" 2 3 "No" none 0
      (1/10)).1.prediction = "Fraud" ∧
    ((Engine.Flag.VERY_HIGH_AMOUNT ∈ (Engine.analyze_transaction {} "t1" "c1"
        60000 "Web" 2 3 "No" none 0 (1/10)).1.all_flags ∧
      Engine.Flag.UNVERIFIED_KYC_HIGH_AMOUNT ∈ (Engine.analyze_transaction {}
        "t1" "c1" 60000 "Web" 2 3 "No" none 0 (1/10)).1.all_flags) →
      8/10 ≤ (Engine.analyze_transaction {} "t1" "c1" 60000 "Web" 2 3 "No"
        none 0 (1/10)).1.risk_score ∧
      ((Engine.analyze_transaction {} "t1" "c1" 60000 "Web" 2 3 "No" none 0
        (1/10)).1.risk_level = "High" ∨
       (Engine.analyze_transaction {} "t1" "c1" 60000 "Web" 2 3 "No" none 0
        (1/10)).1.risk_level = "Critical"))) :=
  ⟨by
    rw [Engine.analyze_rule_flags]
    norm_num [Engine.apply_business_rules, Engine.medium_value_amount,
      Engine.new_account_days, Engine.very_new_account_days,
      Engine.high_value_amount, Engine.unusual_hours, pyLower_No, pyLower_Web]
    decide,
   analyze_three_rule_flags_override {} "t1" "c1" 60000 "Web" 2 3 "No" none 0
    (1/10) (by
      rw [Engine.analyze_rule_flags]
      norm_num [Engine.apply_business_rules, Engine.medium_value_amount,
        Engine.new_account_days, Engine.very_new_account_days,
        Engine.high_value_amount, Engine.unusual_hours, pyLower_No,
        pyLower_Web]
      decide)⟩

/-!
## Claim C4: EXTREME_FRAUD_PATTERN forces the fraud decision
-/

/-- Claim C4: when a transaction triggers `EXTREME_FRAUD_PATTERN`
(account_age ≤ 5, amount > 70000, KYC "No", hour ≤ 4), the rule/ML fusion
returns fraud for every ml_probability in [0,1], in both the serverless
handler (`index.py`) and the backend API (`main.py`). -/
theorem extreme_pattern_always_fraud (amount : ℚ) (age hour : ℤ)
    (kyc channel : String) (ml_prediction : ℕ) (p : ℚ)
    (hage : age ≤ 5) (hamt : 70000 < amount) (hkyc1 : pyLower kyc = "no")
    (hkyc2 : pyLower (pyStrip kyc) = "no") (hhour : hour ≤ 4)
    (hp0 : 0 ≤ p) (hp1 : p ≤ 1) :
    (VercelApi.apply_rule_based_detection amount age hour kyc channel p).1 =
      true ∧
    (ApiMain.apply_rule_based_detection amount age hour kyc channel
      ml_prediction p).1 = 1 := by
  constructor
  · have hmem : ApiRuleFlag.EXTREME_FRAUD_PATTERN ∈
        (VercelApi.apply_rule_based_detection amount age hour kyc channel
          p).2 := by
      simp only [VercelApi.apply_rule_based_detection]
      simp [hage, hamt, hkyc1, hhour]
    simp only [VercelApi.apply_rule_based_detection] at hmem ⊢
    rw [if_pos hmem]
  · have hmem : ApiRuleFlag.EXTREME_FRAUD_PATTERN ∈
        (ApiMain.apply_rule_based_detection amount age hour kyc channel
          ml_prediction p).2 := by
      simp only [ApiMain.apply_rule_based_detection]
      simp [hage, hamt, hkyc2, hhour]
    simp only [ApiMain.apply_rule_based_detection] at hmem ⊢
    rw [if_pos hmem]

/-- Witness for C4: amount 75000, 3-day-old account, 02:00, KYC "No",
checked at both p = 0 and p = 0.99. -/
theorem extreme_pattern_always_fraud_witness :
    ((3:ℤ) ≤ 5 ∧ (70000:ℚ) < 75000 ∧ pyLower "No" = "no" ∧
      pyLower (pyStrip "No") = "no" ∧ (2:ℤ) ≤ 4 ∧
      (0 ≤ (0:ℚ) ∧ (0:ℚ) ≤ 1) ∧ (0 ≤ (99/100:ℚ) ∧ (99/100:ℚ) ≤ 1)) ∧
    ((VercelApi.apply_rule_based_detection 75000 3 2 "No" "Web" 0).1 = true ∧
     (ApiMain.apply_rule_based_detection 75000 3 2 "No" "Web" 0 0).1 = 1) ∧
    ((VercelApi.apply_rule_based_detection 75000 3 2 "No" "Web"
        (99/100)).1 = true ∧
     (ApiMain.apply_rule_based_detection 75000 3 2 "No" "Web" 0
        (99/100)).1 = 1) :=
  ⟨⟨by norm_num, by norm_num, pyLower_No, pyLowerStrip_No, by norm_num,
    ⟨by norm_num, by norm_num⟩, ⟨by norm_num, by norm_num⟩⟩,
   extreme_pattern_always_fraud 75000 3 2 "No" "Web" 0 0 (by norm_num)
     (by norm_num) pyLower_No pyLowerStrip_No (by norm_num) (by norm_num)
     (by norm_num),
   extreme_pattern_always_fraud 75000 3 2 "No" "Web" 0 (99/100) (by norm_num)
     (by norm_num) pyLower_No pyLowerStrip_No (by norm_num) (by norm_num)
     (by norm_num)⟩

/-!
## Claim C6: risk-level derivation and upgrade in the serverless handler
-/

/-- The risk-level upgrade as amended for claim C6: the level computed
from `p` alone is upgraded only when the final decision is fraud and that
level is Low — to High with three or more rule flags, else to Medium;
computed Medium and High levels are returned unchanged. -/
def spec_risk_level_upgrade (p : ℚ) (is_fraud : Bool)
    (rule_flag_count : ℕ) : String :=
  let base := VercelApi.determine_risk_level p
  if is_fraud ∧ base = "Low" then
    (if rule_flag_count < 3 then "Medium" else "High")
  else base

/-- Counterexample for claim C6 as stated: amount 50001, account age 29,
channel "atm", KYC "Yes", hour 12 gives a simulated ML probability of
0.65 (computed level Medium), three rule flags and a fraud decision, yet
the returned risk level stays "Medium" — the claimed Medium→High upgrade
does not exist in the handler. -/
theorem risk_level_upgrade_counterexample :
    (VercelApi.handle_predict_enhanced "c1" 50001 29 "atm" "Yes"
      12).rule_flags.length = 3 ∧
    (VercelApi.handle_predict_enhanced "c1" 50001 29 "atm" "Yes"
      12).prediction = "Fraud" ∧
    VercelApi.determine_risk_level
      (VercelApi.calculate_fraud_probability 50001 29 12 "Yes" "atm") =
      "Medium" ∧
    (VercelApi.handle_predict_enhanced "c1" 50001 29 "atm" "Yes"
      12).risk_level = "Medium" := by
  have hprob : VercelApi.calculate_fraud_probability 50001 29 12 "Yes" "atm" =
      65/100 := by
    simp only [VercelApi.calculate_fraud_probability, pyLower_Yes, pyLower_atm]
    norm_num [str_yes_ne_no, min_def]
  have hflags : (VercelApi.apply_rule_based_detection 50001 29 12 "Yes" "atm"
      (65/100)).2 = [ApiRuleFlag.HIGH_VALUE_NEW_ACCOUNT,
        ApiRuleFlag.VERY_HIGH_AMOUNT, ApiRuleFlag.HIGH_ATM_WITHDRAWAL] := by
    simp only [VercelApi.apply_rule_based_detection, pyLower_Yes, pyLower_atm]
    norm_num [str_yes_ne_no]
  have hfraud : (VercelApi.apply_rule_based_detection 50001 29 12 "Yes" "atm"
      (65/100)).1 = true := by
    simp only [VercelApi.apply_rule_based_detection, pyLower_Yes, pyLower_atm]
    norm_num [str_yes_ne_no]
  have hlvl : VercelApi.determine_risk_level (65/100) = "Medium" := by
    norm_num [VercelApi.determine_risk_level]
  refine ⟨?_, ?_, hprob ▸ hlvl, ?_⟩
  · simp only [VercelApi.handle_predict_enhanced, hprob, hflags]
    rfl
  · simp only [VercelApi.handle_predict_enhanced, hprob, hfraud]
    rfl
  · simp only [VercelApi.handle_predict_enhanced, hprob, hfraud, hflags, hlvl]
    norm_num [str_Medium_ne_Low]

/-- Claim C6 (amended): the risk level returned by
`handle_predict_enhanced` is the level computed from the simulated ML
probability alone, upgraded only when the final decision is fraud and the
computed level is Low (to High when at least 3 rule flags are present,
else to Medium); a computed Medium level is never upgraded. -/
theorem risk_level_upgrade_matches (cid : String) (amount : ℚ) (age : ℤ)
    (channel kyc : String) (hour : ℤ) :
    ((VercelApi.handle_predict_enhanced cid amount age channel kyc
        hour).risk_level =
      spec_risk_level_upgrade
        (VercelApi.calculate_fraud_probability amount age hour kyc channel)
        (VercelApi.apply_rule_based_detection amount age hour kyc channel
          (VercelApi.calculate_fraud_probability amount age hour kyc
            channel)).1
        (VercelApi.apply_rule_based_detection amount age hour kyc channel
          (VercelApi.calculate_fraud_probability amount age hour kyc
            channel)).2.length) ∧
    (VercelApi.determine_risk_level
        (VercelApi.calculate_fraud_probability amount age hour kyc channel) =
        "Medium" →
      (VercelApi.handle_predict_enhanced cid amount age channel kyc
        hour).risk_level = "Medium") := by
  constructor
  · rfl
  · intro h
    simp only [VercelApi.handle_predict_enhanced]
    rw [h]
    simp

/-!
## Claim C7: the HIGH_VALUE_NEW_ACCOUNT trigger condition
-/

/-- Membership in a conditional singleton rule segment. -/
lemma mem_flag_ite {α : Type} [DecidableEq α] (c : Prop) [Decidable c]
    (f g : α) : f ∈ (if c then [g] else []) ↔ c ∧ f = g := by
  split_ifs with h <;> simp [h]

/-- Counterexample for claim C7 as stated: at amount 15000 and account age
10 the claim demands `HIGH_VALUE_NEW_ACCOUNT`, but
`FraudDetectionEngine._apply_business_rules` does not raise it (its
threshold is 20000, not 10000). -/
theorem high_value_new_account_condition_counterexample :
    (10000:ℚ) < 15000 ∧ (10:ℤ) < 30 ∧
    Engine.Flag.HIGH_VALUE_NEW_ACCOUNT ∉
      Engine.apply_business_rules 15000 "Web" 12 10 "Yes" := by
  refine ⟨by norm_num, by norm_num, ?_⟩
  simp only [Engine.apply_business_rules, Engine.medium_value_amount,
    Engine.new_account_days, Engine.very_new_account_days,
    Engine.high_value_amount, Engine.unusual_hours, pyLower_Yes, pyLower_Web]
  norm_num
  decide

/-- Claim C7 (amended): `HIGH_VALUE_NEW_ACCOUNT` is raised iff
amount > 10000 and account_age_days < 30 in the two API rule paths
(`main.py` and `index.py`), but iff amount > 20000 (the
`medium_value_amount` threshold) and account_age_days < 30 in
`FraudDetectionEngine._apply_business_rules`. -/
theorem high_value_new_account_condition (amount : ℚ) (channel : String)
    (hour age : ℤ) (kyc : String) (ml_prediction : ℕ) (p : ℚ) :
    (Engine.Flag.HIGH_VALUE_NEW_ACCOUNT ∈
        Engine.apply_business_rules amount channel hour age kyc ↔
      20000 < amount ∧ age < 30) ∧
    (ApiRuleFlag.HIGH_VALUE_NEW_ACCOUNT ∈
        (ApiMain.apply_rule_based_detection amount age hour kyc channel
          ml_prediction p).2 ↔
      10000 < amount ∧ age < 30) ∧
    (ApiRuleFlag.HIGH_VALUE_NEW_ACCOUNT ∈
        (VercelApi.apply_rule_based_detection amount age hour kyc channel
          p).2 ↔
      10000 < amount ∧ age < 30) := by
  refine ⟨?_, ?_, ?_⟩ <;>
    simp [Engine.apply_business_rules, ApiMain.apply_rule_based_detection,
      VercelApi.apply_rule_based_detection, Engine.medium_value_amount,
      Engine.new_account_days, mem_flag_ite]

/-!
## Claim C8: the bounded sliding window of `CustomerProfile`
-/

namespace Engine

/-- A sequence of profile updates, applied in order
(`amount, channel, hour, location, timestamp`). -/
def apply_updates (p : CustomerProfile)
    (txs : List (ℚ × String × ℤ × String × ℚ)) : CustomerProfile :=
  txs.foldl (fun q u => q.update_with_transaction u.1 u.2.1 u.2.2.1
    u.2.2.2.1 u.2.2.2.2) p

lemma update_with_transaction_amounts (p : CustomerProfile) (a : ℚ)
    (ch : String) (h : ℤ) (loc : String) (ts : ℚ) :
    (p.update_with_transaction a ch h loc ts).recent_transaction_amounts =
    if 50 < (p.recent_transaction_amounts ++ [a]).length then
      (p.recent_transaction_amounts ++ [a]).drop 1
    else p.recent_transaction_amounts ++ [a] := rfl

lemma update_with_transaction_times (p : CustomerProfile) (a : ℚ)
    (ch : String) (h : ℤ) (loc : String) (ts : ℚ) :
    (p.update_with_transaction a ch h loc ts).recent_transaction_times =
    if 50 < (p.recent_transaction_amounts ++ [a]).length then
      (p.recent_transaction_times ++ [ts]).drop 1
    else p.recent_transaction_times ++ [ts] := rfl

end Engine

/-- One step of the window recurrence: appending to the 50-suffix window
of a list yields the 50-suffix window of the extended list. -/
lemma window_step_eq {α : Type} (l : List α) (x : α) (n : ℕ)
    (hn : l.length = n) :
    (if 50 < (l.drop (n - 50) ++ [x]).length then
      (l.drop (n - 50) ++ [x]).drop 1
     else l.drop (n - 50) ++ [x]) = (l ++ [x]).drop ((n + 1) - 50) := by
  subst hn
  by_cases hsmall : l.length < 50
  · have h0 : l.length - 50 = 0 := by omega
    rw [if_neg (by simp; omega)]
    have h1 : l.length + 1 - 50 = 0 := by omega
    rw [h0, h1, List.drop_zero, List.drop_zero]
  · have hwlen : (l.drop (l.length - 50)).length = 50 := by
      simp [List.length_drop]
      omega
    rw [if_pos (by simp [hwlen])]
    have hd1 : (l.drop (l.length - 50) ++ [x]).drop 1 =
        (l.drop (l.length - 50)).drop 1 ++ [x] := by
      rw [List.drop_append_of_le_length (by omega)]
    rw [hd1, List.drop_drop]
    rw [List.drop_append_of_le_length (by omega)]
    have hidx : l.length - 50 + 1 = l.length + 1 - 50 := by omega
    rw [hidx]

/-- Claim C8: starting from a freshly created profile, after any sequence
of `n` updates the recent-transaction window holds exactly `min n 50`
entries — the `n` most recent `(amount, timestamp)` pairs in order, the
oldest dropped first. -/
theorem profile_window_bounded (cid : String) (age : ℤ) (kyc : String)
    (txs : List (ℚ × String × ℤ × String × ℚ)) :
    (Engine.apply_updates (Engine.profile_for {} cid age kyc)
        txs).recent_transaction_amounts =
      (txs.map (·.1)).drop (txs.length - 50) ∧
    (Engine.apply_updates (Engine.profile_for {} cid age kyc)
        txs).recent_transaction_times =
      (txs.map (fun u => u.2.2.2.2)).drop (txs.length - 50) ∧
    (Engine.apply_updates (Engine.profile_for {} cid age kyc)
        txs).recent_transaction_amounts.length = min txs.length 50 ∧
    (Engine.apply_updates (Engine.profile_for {} cid age kyc)
        txs).recent_transaction_times.length = min txs.length 50 := by
  have key : ∀ (l : List (ℚ × String × ℤ × String × ℚ)),
      (Engine.apply_updates (Engine.profile_for {} cid age kyc)
          l).recent_transaction_amounts =
        (l.map (·.1)).drop (l.length - 50) ∧
      (Engine.apply_updates (Engine.profile_for {} cid age kyc)
          l).recent_transaction_times =
        (l.map (fun u => u.2.2.2.2)).drop (l.length - 50) := by
    intro l
    induction l using List.reverseRecOn with
    | nil =>
        constructor <;>
          simp [Engine.apply_updates, Engine.profile_for,
            Engine.get_or_create_profile, dictGet, dictSet]
    | append_singleton l u ih =>
        obtain ⟨iha, iht⟩ := ih
        have hfold : Engine.apply_updates (Engine.profile_for {} cid age kyc)
            (l ++ [u]) =
            (Engine.apply_updates (Engine.profile_for {} cid age kyc)
              l).update_with_transaction u.1 u.2.1 u.2.2.1 u.2.2.2.1
              u.2.2.2.2 := by
          simp [Engine.apply_updates, List.foldl_append]
        constructor
        · rw [hfold, Engine.update_with_transaction_amounts, iha]
          rw [window_step_eq (l.map (·.1)) u.1 l.length (by simp)]
          simp
        · rw [hfold, Engine.update_with_transaction_times, iha, iht]
          have hclen : ((l.map (·.1)).drop (l.length - 50) ++ [u.1]).length =
              ((l.map (fun u => u.2.2.2.2)).drop (l.length - 50) ++
                [u.2.2.2.2]).length := by
            simp
          rw [hclen]
          rw [window_step_eq (l.map (fun u => u.2.2.2.2)) u.2.2.2.2 l.length
            (by simp)]
          simp
  obtain ⟨ha, ht⟩ := key txs
  refine ⟨ha, ht, ?_, ?_⟩
  · rw [ha]
    simp [List.length_drop]
    omega
  · rw [ht]
    simp [List.length_drop]
    omega

/-!
## Claim C5: velocity pruning and thresholds
-/

namespace Engine

lemma check_velocity_fst (m : List (String × List ℚ)) (cid : String)
    (ts : ℚ) : (check_velocity m cid ts).1 =
    velocity_flags_of_count
      (prune_velocity ((dictGet m cid).getD []) ts).length := rfl

/-- The two velocity flags as functions of the pruned count: exceeded iff
count ≥ 10, warning iff 7 ≤ count < 10, never both. -/
lemma velocity_flags_of_count_spec (k : ℕ) :
    (Flag.VELOCITY_LIMIT_EXCEEDED ∈ velocity_flags_of_count k ↔ 10 ≤ k) ∧
    (Flag.VELOCITY_WARNING ∈ velocity_flags_of_count k ↔ (7 ≤ k ∧ k < 10)) ∧
    ¬(Flag.VELOCITY_LIMIT_EXCEEDED ∈ velocity_flags_of_count k ∧
      Flag.VELOCITY_WARNING ∈ velocity_flags_of_count k) := by
  unfold velocity_flags_of_count velocity_threshold
  have hc : (((10:ℕ) : ℚ) * (7/10) ≤ (k : ℚ)) ↔ 7 ≤ k := by
    rw [show ((10:ℕ) : ℚ) * (7/10) = ((7:ℕ) : ℚ) by norm_num]
    exact_mod_cast Iff.rfl
  simp only [hc]
  by_cases h10 : 10 ≤ k <;> by_cases h7 : 7 ≤ k <;>
    simp [h10, h7] <;> omega

/-- A sequence of `analyze_transaction` calls for one customer (fixed
benign transaction attributes, varying timestamps), threading the engine
state. -/
def run_same_customer (s : EngineState) (cid : String)
    (ts_list : List ℚ) : EngineState :=
  ts_list.foldl (fun st ts =>
    (analyze_transaction st "txn" cid 100 "Web" 12 100 "Yes" none ts 0).2) s

/-- The velocity map after a run is the fold of prune-then-append steps. -/
lemma run_same_customer_velocity (s : EngineState) (cid : String)
    (l : List ℚ) :
    (run_same_customer s cid l).transaction_velocity =
    l.foldl (fun m ts => update_velocity (check_velocity m cid ts).2 cid ts)
      s.transaction_velocity := by
  induction l generalizing s with
  | nil => rfl
  | cons t rest ih =>
      have h1 : run_same_customer s cid (t :: rest) =
          run_same_customer
            ((analyze_transaction s "txn" cid 100 "Web" 12 100 "Yes" none t
              0).2) cid rest := rfl
      rw [h1, ih, analyze_state_velocity]
      rfl

end Engine

/-- Claim C5 (amended): the velocity check counts only timestamps within
the trailing 60 minutes; it emits `VELOCITY_LIMIT_EXCEEDED` exactly when
the pruned count is ≥ 10 and `VELOCITY_WARNING` exactly when it is ≥ 7
and < 10, never both.  Because a transaction is recorded only *after* its
own check, ten calls within one minute produce `VELOCITY_WARNING` on the
tenth call and `VELOCITY_LIMIT_EXCEEDED` first on the eleventh — the
eleventh-call scenario is verified here. -/
theorem velocity_check_characterization (m : List (String × List ℚ))
    (cid : String) (ts : ℚ) :
    (∀ t ∈ Engine.prune_velocity ((dictGet m cid).getD []) ts, ts - t ≤ 60) ∧
    (Engine.Flag.VELOCITY_LIMIT_EXCEEDED ∈ (Engine.check_velocity m cid ts).1 ↔
      10 ≤ (Engine.prune_velocity ((dictGet m cid).getD []) ts).length) ∧
    (Engine.Flag.VELOCITY_WARNING ∈ (Engine.check_velocity m cid ts).1 ↔
      (7 ≤ (Engine.prune_velocity ((dictGet m cid).getD []) ts).length ∧
       (Engine.prune_velocity ((dictGet m cid).getD []) ts).length < 10)) ∧
    (¬ (Engine.Flag.VELOCITY_LIMIT_EXCEEDED ∈
          (Engine.check_velocity m cid ts).1 ∧
        Engine.Flag.VELOCITY_WARNING ∈ (Engine.check_velocity m cid ts).1)) ∧
    (Engine.analyze_transaction
        (Engine.run_same_customer {} "c"
          [0, 1/20, 2/20, 3/20, 4/20, 5/20, 6/20, 7/20, 8/20, 9/20])
        "txn" "c" 100 "Web" 12 100 "Yes" none (10/20)
        0).1.velocity_flags = [Engine.Flag.VELOCITY_LIMIT_EXCEEDED] := by
  obtain ⟨he, hw, hx⟩ := Engine.velocity_flags_of_count_spec
    (Engine.prune_velocity ((dictGet m cid).getD []) ts).length
  refine ⟨?_, ?_, ?_, ?_, ?_⟩
  · intro t ht
    simp only [Engine.prune_velocity, List.mem_filter] at ht
    exact of_decide_eq_true ht.2
  · rw [Engine.check_velocity_fst]
    exact he
  · rw [Engine.check_velocity_fst]
    exact hw
  · rw [Engine.check_velocity_fst]
    exact hx
  · rw [Engine.analyze_velocity_flags, Engine.run_same_customer_velocity]
    norm_num [List.foldl, Engine.check_velocity, Engine.update_velocity,
      Engine.prune_velocity, Engine.velocity_flags_of_count,
      Engine.velocity_threshold, Engine.velocity_window_minutes,
      dictGet, dictSet, List.filter]

/-- Witness for C5 at the map `{"c" ↦ [0]}` checked at minute 30: the
single pruned entry is within the hour window. -/
theorem velocity_check_characterization_witness :
    ((0:ℚ) ∈ Engine.prune_velocity
      ((dictGet [("c", [(0:ℚ)])] "c").getD []) 30) ∧ ((30:ℚ) - 0 ≤ 60) :=
  ⟨by
    simp [Engine.prune_velocity, dictGet, Engine.velocity_window_minutes]
    norm_num,
   (velocity_check_characterization [("c", [(0:ℚ)])] "c" 30).1 0 (by
    simp [Engine.prune_velocity, dictGet, Engine.velocity_window_minutes]
    norm_num)⟩

/-- Counterexample for the ten-call scenario of claim C5 as stated: ten
calls within one minute (timestamps 0, 1/20, …, 9/20 minutes) yield
`VELOCITY_WARNING`, not `VELOCITY_LIMIT_EXCEEDED`, on the tenth call —
the check runs before the current transaction is recorded. -/
theorem velocity_tenth_call_counterexample :
    (Engine.analyze_transaction
        (Engine.run_same_customer {} "c"
          [0, 1/20, 2/20, 3/20, 4/20, 5/20, 6/20, 7/20, 8/20])
        "txn" "c" 100 "Web" 12 100 "Yes" none (9/20)
        0).1.velocity_flags = [Engine.Flag.VELOCITY_WARNING] := by
  rw [Engine.analyze_velocity_flags, Engine.run_same_customer_velocity]
  norm_num [List.foldl, Engine.check_velocity, Engine.update_velocity,
    Engine.prune_velocity, Engine.velocity_flags_of_count,
    Engine.velocity_threshold, Engine.velocity_window_minutes,
    dictGet, dictSet, List.filter]

/-!
## Claim C10: first-seen profile fields and the signature check
-/

namespace Engine

/-- The stored profile after `analyze_transaction`: the working profile
updated with the transaction, the final risk score appended to its
history, and the fraud counter bumped on a fraud decision. -/
def profile_after (s : EngineState) (cid : String) (amount : ℚ)
    (channel : String) (hour age : ℤ) (kyc : String) (loc : Option String)
    (ts p : ℚ) : CustomerProfile :=
  let profile1 := (profile_for s cid age kyc).update_with_transaction amount
    channel hour (locOrUnknown loc) ts
  { profile1 with
    risk_score_history := profile1.risk_score_history ++
      [(decision_for s cid amount channel hour age kyc loc ts p).2.1]
    fraud_incidents := profile1.fraud_incidents +
      (if (decision_for s cid amount channel hour age kyc loc ts p).1 then 1
       else 0) }

set_option maxHeartbeats 1600000 in
lemma analyze_state_profiles (s : EngineState) (tid cid : String)
    (amount : ℚ) (channel : String) (hour age : ℤ) (kyc : String)
    (loc : Option String) (ts p : ℚ) :
    (analyze_transaction s tid cid amount channel hour age kyc loc ts
      p).2.customer_profiles =
    dictSet (get_or_create_profile s.customer_profiles cid age kyc) cid
      (profile_after s cid amount channel hour age kyc loc ts p) := rfl

/-- `update_with_transaction` leaves `account_age_days` unchanged. -/
lemma update_with_transaction_age (p : CustomerProfile) (a : ℚ)
    (ch : String) (h : ℤ) (loc : String) (ts : ℚ) :
    (p.update_with_transaction a ch h loc ts).account_age_days =
    p.account_age_days := rfl

/-- `update_with_transaction` leaves `kyc_verified` unchanged. -/
lemma update_with_transaction_kyc (p : CustomerProfile) (a : ℚ)
    (ch : String) (h : ℤ) (loc : String) (ts : ℚ) :
    (p.update_with_transaction a ch h loc ts).kyc_verified =
    p.kyc_verified := rfl

lemma profile_after_age (s : EngineState) (cid : String) (amount : ℚ)
    (channel : String) (hour age : ℤ) (kyc : String) (loc : Option String)
    (ts p : ℚ) :
    (profile_after s cid amount channel hour age kyc loc ts
      p).account_age_days = (profile_for s cid age kyc).account_age_days :=
  rfl

lemma profile_after_kyc (s : EngineState) (cid : String) (amount : ℚ)
    (channel : String) (hour age : ℤ) (kyc : String) (loc : Option String)
    (ts p : ℚ) :
    (profile_after s cid amount channel hour age kyc loc ts
      p).kyc_verified = (profile_for s cid age kyc).kyc_verified := rfl

/-- `_get_or_create_profile` leaves the map unchanged when the profile
already exists. -/
lemma get_or_create_existing (m : List (String × CustomerProfile))
    (cid : String) (age : ℤ) (kyc : String) (p0 : CustomerProfile)
    (h : dictGet m cid = some p0) :
    get_or_create_profile m cid age kyc = m := by
  unfold get_or_create_profile
  rw [h]

/-- When the profile already exists, `analyze_transaction` works with the
stored profile, not one built from the current transaction. -/
lemma profile_for_existing (s : EngineState) (cid : String) (age : ℤ)
    (kyc : String) (p0 : CustomerProfile)
    (h : dictGet s.customer_profiles cid = some p0) :
    profile_for s cid age kyc = p0 := by
  unfold profile_for
  rw [get_or_create_existing _ _ _ _ _ h, h]
  rfl

/-- Reading back the key just written. -/
lemma dictGet_dictSet {α : Type} (m : List (String × α)) (k : String)
    (v : α) : dictGet (dictSet m k v) k = some v := by
  induction m with
  | nil => simp [dictGet, dictSet]
  | cons e rest ih =>
      obtain ⟨k', v'⟩ := e
      by_cases hk : k' = k <;> simp [dictGet, dictSet, hk, ih]

end Engine

/-- Claim C10: when a profile already exists for `customer_id`, a further
`analyze_transaction` call — even with different `account_age_days` and
`kyc_verified` values — leaves the stored profile's `account_age_days`
and `kyc_verified` at their first-seen values, and the signature check
reads the stored (first-seen) profile: its flags do not depend on the
call's `account_age_days`/`kyc_verified` arguments. -/
theorem profile_first_seen_frame (s : Engine.EngineState) (tid cid : String)
    (amount : ℚ) (channel : String) (hour age age' : ℤ) (kyc kyc' : String)
    (loc : Option String) (ts p : ℚ) (p0 : Engine.CustomerProfile)
    (hexist : dictGet s.customer_profiles cid = some p0) :
    (∃ p1, dictGet ((Engine.analyze_transaction s tid cid amount channel hour
        age kyc loc ts p).2.customer_profiles) cid = some p1 ∧
      p1.account_age_days = p0.account_age_days ∧
      p1.kyc_verified = p0.kyc_verified) ∧
    (Engine.analyze_transaction s tid cid amount channel hour age kyc loc ts
        p).1.signature_flags =
      Engine.match_fraud_signatures p0 amount hour ts ∧
    (Engine.analyze_transaction s tid cid amount channel hour age kyc loc ts
        p).1.signature_flags =
      (Engine.analyze_transaction s tid cid amount channel hour age' kyc' loc
        ts p).1.signature_flags := by
  refine ⟨?_, ?_, ?_⟩
  · refine ⟨Engine.profile_after s cid amount channel hour age kyc loc ts p,
      ?_, ?_, ?_⟩
    · rw [Engine.analyze_state_profiles]
      exact Engine.dictGet_dictSet _ _ _
    · rw [Engine.profile_after_age,
        Engine.profile_for_existing s cid age kyc p0 hexist]
    · rw [Engine.profile_after_kyc,
        Engine.profile_for_existing s cid age kyc p0 hexist]
  · rw [Engine.analyze_signature_flags,
      Engine.profile_for_existing s cid age kyc p0 hexist]
  · rw [Engine.analyze_signature_flags, Engine.analyze_signature_flags,
      Engine.profile_for_existing s cid age kyc p0 hexist,
      Engine.profile_for_existing s cid age' kyc' p0 hexist]

/-- The stored profile and engine state used in the C10 witness: one
customer `"c"` first seen with account age 3 and unverified KYC. -/
def c10_profile : Engine.CustomerProfile :=
  { customer_id := "c", account_age_days := 3 }

def c10_state : Engine.EngineState :=
  { customer_profiles := [("c", c10_profile)] }

/-- Witness for C10: the stored profile for `"c"` (first seen with age 3,
KYC unverified) analyzed again with age 400 / KYC "Yes" (and age 5 /
KYC "No" for the independence part). -/
theorem profile_first_seen_frame_witness :
    (dictGet c10_state.customer_profiles "c" = some c10_profile) ∧
    ((∃ p1, dictGet ((Engine.analyze_transaction c10_state "t" "c" 500 "Web"
        12 400 "Yes" none 0 0).2.customer_profiles) "c" = some p1 ∧
      p1.account_age_days = c10_profile.account_age_days ∧
      p1.kyc_verified = c10_profile.kyc_verified) ∧
    (Engine.analyze_transaction c10_state "t" "c" 500 "Web" 12 400 "Yes" none
        0 0).1.signature_flags =
      Engine.match_fraud_signatures c10_profile 500 12 0 ∧
    (Engine.analyze_transaction c10_state "t" "c" 500 "Web" 12 400 "Yes" none
        0 0).1.signature_flags =
      (Engine.analyze_transaction c10_state "t" "c" 500 "Web" 12 5 "No" none
        0 0).1.signature_flags) :=
  ⟨by simp [c10_state, dictGet],
   profile_first_seen_frame c10_state "t" "c" 500 "Web" 12 400 5 "Yes" "No"
    none 0 0 c10_profile (by simp [c10_state, dictGet])⟩

/-!
## Claim C9: `analyze_transaction` always returns a complete result
-/

namespace Engine

section MoreFieldLemmas

variable (s : EngineState) (tid cid : String) (amount : ℚ) (channel : String)
  (hour age : ℤ) (kyc : String) (loc : Option String) (ts p : ℚ)

set_option maxHeartbeats 1600000 in
lemma analyze_alerts_generated :
    (analyze_transaction s tid cid amount channel hour age kyc loc ts
      p).1.alerts_generated =
    (generate_alerts_block tid cid amount
      (decision_for s cid amount channel hour age kyc loc ts p).2.2
      (apply_business_rules amount channel hour age kyc ++
       analyze_behavior (profile_for s cid age kyc) amount channel hour loc
         ts ++
       match_fraud_signatures (profile_for s cid age kyc) amount hour ts ++
       (check_velocity s.transaction_velocity cid ts).1)
      ts s.alert_counter).1.length := rfl

set_option maxHeartbeats 1600000 in
lemma analyze_alert_ids :
    (analyze_transaction s tid cid amount channel hour age kyc loc ts
      p).1.alert_ids =
    ((generate_alerts_block tid cid amount
      (decision_for s cid amount channel hour age kyc loc ts p).2.2
      (apply_business_rules amount channel hour age kyc ++
       analyze_behavior (profile_for s cid age kyc) amount channel hour loc
         ts ++
       match_fraud_signatures (profile_for s cid age kyc) amount hour ts ++
       (check_velocity s.transaction_velocity cid ts).1)
      ts s.alert_counter).1).map Alert.alert_id := rfl

lemma analyze_risk_factors :
    (analyze_transaction s tid cid amount channel hour age kyc loc ts
      p).1.risk_factors =
    generate_risk_factors
      (apply_business_rules amount channel hour age kyc ++
       analyze_behavior (profile_for s cid age kyc) amount channel hour loc
         ts ++
       match_fraud_signatures (profile_for s cid age kyc) amount hour ts ++
       (check_velocity s.transaction_velocity cid ts).1)
      amount age hour kyc := rfl

lemma analyze_transaction_id :
    (analyze_transaction s tid cid amount channel hour age kyc loc ts
      p).1.transaction_id = tid := rfl

lemma analyze_customer_id :
    (analyze_transaction s tid cid amount channel hour age kyc loc ts
      p).1.customer_id = cid := rfl

lemma analyze_profile_account_age :
    (analyze_transaction s tid cid amount channel hour age kyc loc ts
      p).1.profile_account_age_days = age := rfl

end MoreFieldLemmas

/-- The overridden risk score stays within [0,1] when the input does. -/
lemma decision_override_score_bounds (rs : ℚ) (rl : RiskLevel) (rc : ℕ)
    (crit : Bool) (h0 : 0 ≤ rs) (h1 : rs ≤ 1) :
    0 ≤ (decision_override rs rl rc crit).2.1 ∧
    (decision_override rs rl rc crit).2.1 ≤ 1 := by
  simp only [decision_override]
  by_cases h3 : 3 ≤ rc <;> cases crit <;> simp [h3, max_le_iff, le_max_iff]
  all_goals try constructor
  all_goals try linarith
  all_goals try norm_num
  all_goals linarith

/-- The final (pre-rounding) risk score of `analyze_transaction` lies in
[0,1] unconditionally (the composite score is clamped first). -/
lemma decision_for_score_bounds (s : EngineState) (cid : String)
    (amount : ℚ) (channel : String) (hour age : ℤ) (kyc : String)
    (loc : Option String) (ts p : ℚ) :
    0 ≤ (decision_for s cid amount channel hour age kyc loc ts p).2.1 ∧
    (decision_for s cid amount channel hour age kyc loc ts p).2.1 ≤ 1 := by
  simp only [decision_for]
  exact decision_override_score_bounds _ _ _ _
    (calculate_composite_risk_nonneg _ _ _ _ _)
    (calculate_composite_risk_le_one _ _ _ _ _)

/-- Rounding a score in [0,1] to 4 decimals stays in [0,1]. -/
lemma roundq4_mem_unit (x : ℚ) (h0 : 0 ≤ x) (h1 : x ≤ 1) :
    0 ≤ roundq 4 x ∧ roundq 4 x ≤ 1 := by
  constructor
  · have h := roundq_ge 4 0 x (by push_cast; nlinarith)
    simpa using h
  · have h := roundq_le 4 10000 x (by push_cast; nlinarith)
    have he : ((10000:ℤ) : ℚ) / 10 ^ 4 = 1 := by norm_num
    rw [he] at h
    exact h

/-- The rounded confidence value lies in [0,100] when the score does in
[0,1]. -/
lemma roundq2_conf_bounds (x : ℚ) (h0 : 0 ≤ x) (h1 : x ≤ 1) :
    0 ≤ roundq 2 (|x - 1/2| * 200) ∧ roundq 2 (|x - 1/2| * 200) ≤ 100 := by
  have habs : |x - 1/2| ≤ 1/2 := abs_le.mpr ⟨by linarith, by linarith⟩
  have habs0 : 0 ≤ |x - 1/2| := abs_nonneg _
  constructor
  · have h := roundq_ge 2 0 (|x - 1/2| * 200) (by push_cast; nlinarith)
    simpa using h
  · have h := roundq_le 2 10000 (|x - 1/2| * 200) (by push_cast; nlinarith)
    have he : ((10000:ℤ) : ℚ) / 10 ^ 2 = 100 := by norm_num
    rw [he] at h
    exact h

/-- At most five risk factors are ever returned. -/
lemma generate_risk_factors_le_five (flags : List Flag) (amount : ℚ)
    (age hour : ℤ) (kyc : String) :
    (generate_risk_factors flags amount age hour kyc).length ≤ 5 := by
  simp only [generate_risk_factors]
  simp [List.length_take]

/-- Every `RiskLevel` renders to one of the four documented strings. -/
lemma risk_level_value_cases (rl : RiskLevel) :
    rl.value = "Low" ∨ rl.value = "Medium" ∨ rl.value = "High" ∨
    rl.value = "Critical" := by
  cases rl <;> simp [RiskLevel.value]

end Engine

/-- Claim C9: for every valid input and every engine state,
`analyze_transaction` returns a complete, well-formed result record: the
prediction and `is_fraud` agree and take only their two documented values,
`risk_score`/`fraud_probability` lie in [0,1], the risk level is one of
the four bands, the confidence lies in [0,100], `all_flags` is exactly
the concatenation of the four flag lists, the alert count matches the
alert-id list, at most five risk factors are returned, and the
identifiers and profile snapshot echo the inputs.  The embedded function
is total, so no error branch exists. -/
theorem analyze_transaction_total_result (s : Engine.EngineState)
    (tid cid : String) (amount : ℚ) (channel : String) (hour age : ℤ)
    (kyc : String) (loc : Option String) (ts p : ℚ)
    (hamt : 0 ≤ amount) (hh0 : 0 ≤ hour) (hh1 : hour ≤ 23) (hage : 0 ≤ age)
    (hp0 : 0 ≤ p) (hp1 : p ≤ 1) :
    ∀ res, res = (Engine.analyze_transaction s tid cid amount channel hour
        age kyc loc ts p).1 →
      ((res.prediction = "Fraud" ∧ res.is_fraud = 1) ∨
       (res.prediction = "Legitimate" ∧ res.is_fraud = 0)) ∧
      (0 ≤ res.risk_score ∧ res.risk_score ≤ 1) ∧
      res.fraud_probability = res.risk_score ∧
      (res.risk_level = "Low" ∨ res.risk_level = "Medium" ∨
       res.risk_level = "High" ∨ res.risk_level = "Critical") ∧
      (0 ≤ res.confidence ∧ res.confidence ≤ 100) ∧
      res.all_flags = res.rule_flags ++ res.behavioral_flags ++
        res.signature_flags ++ res.velocity_flags ∧
      res.alerts_generated = res.alert_ids.length ∧
      res.risk_factors.length ≤ 5 ∧
      res.transaction_id = tid ∧ res.customer_id = cid ∧
      res.profile_account_age_days = age := by
  intro res hres
  subst hres
  obtain ⟨hs0, hs1⟩ := Engine.decision_for_score_bounds s cid amount channel
    hour age kyc loc ts p
  refine ⟨?_, ?_, ?_, ?_, ?_, ?_, ?_, ?_, ?_, ?_, ?_⟩
  · cases hb : (Engine.decision_for s cid amount channel hour age kyc loc ts
      p).1
    · right
      rw [Engine.analyze_prediction, Engine.analyze_is_fraud, hb]
      exact ⟨rfl, rfl⟩
    · left
      rw [Engine.analyze_prediction, Engine.analyze_is_fraud, hb]
      exact ⟨rfl, rfl⟩
  · rw [Engine.analyze_risk_score]
    exact Engine.roundq4_mem_unit _ hs0 hs1
  · rw [Engine.analyze_fraud_probability, Engine.analyze_risk_score]
  · rw [Engine.analyze_risk_level]
    exact Engine.risk_level_value_cases _
  · rw [Engine.analyze_confidence]
    exact Engine.roundq2_conf_bounds _ hs0 hs1
  · rw [Engine.analyze_all_flags, Engine.analyze_rule_flags,
      Engine.analyze_behavioral_flags, Engine.analyze_signature_flags,
      Engine.analyze_velocity_flags]
  · rw [Engine.analyze_alerts_generated, Engine.analyze_alert_ids]
    simp
  · rw [Engine.analyze_risk_factors]
    exact Engine.generate_risk_factors_le_five _ _ _ _ _
  · exact Engine.analyze_transaction_id s tid cid amount channel hour age kyc
      loc ts p
  · exact Engine.analyze_customer_id s tid cid amount channel hour age kyc
      loc ts p
  · exact Engine.analyze_profile_account_age s tid cid amount channel hour
      age kyc loc ts p

/-- Witness for C9 at a benign concrete transaction. -/
theorem analyze_transaction_total_result_witness :
    ((0:ℚ) ≤ 500 ∧ (0:ℤ) ≤ 14 ∧ (14:ℤ) ≤ 23 ∧ (0:ℤ) ≤ 400 ∧
      (0:ℚ) ≤ 2/100 ∧ (2/100:ℚ) ≤ 1) ∧
    (∀ res, res = (Engine.analyze_transaction {} "t1" "c1" 500 "Web" 14 400
        "Yes" none 0 (2/100)).1 →
      ((res.prediction = "Fraud" ∧ res.is_fraud = 1) ∨
       (res.prediction = "Legitimate" ∧ res.is_fraud = 0)) ∧
      (0 ≤ res.risk_score ∧ res.risk_score ≤ 1) ∧
      res.fraud_probability = res.risk_score ∧
      (res.risk_level = "Low" ∨ res.risk_level = "Medium" ∨
       res.risk_level = "High" ∨ res.risk_level = "Critical") ∧
      (0 ≤ res.confidence ∧ res.confidence ≤ 100) ∧
      res.all_flags = res.rule_flags ++ res.behavioral_flags ++
        res.signature_flags ++ res.velocity_flags ∧
      res.alerts_generated = res.alert_ids.length ∧
      res.risk_factors.length ≤ 5 ∧
      res.transaction_id = "t1" ∧ res.customer_id = "c1" ∧
      res.profile_account_age_days = 400) :=
  ⟨⟨by norm_num, by norm_num, by norm_num, by norm_num, by norm_num,
    by norm_num⟩,
   analyze_transaction_total_result {} "t1" "c1" 500 "Web" 14 400 "Yes" none
    0 (2/100) (by norm_num) (by norm_num) (by norm_num) (by norm_num)
    (by norm_num) (by norm_num)⟩
